import Mathlib

/-!
Verification of the WiseTestAI test-automation framework against its
natural-language specification.  The Python sources under `src/` are
shallowly embedded: strings are lists of characters, Python dicts are
insertion-ordered association lists, stateful code is explicit state
passing, fallible code returns `Option`/`Except`.  Interactions with the
browser-automation engine, the filesystem, and the HTTP client are the
third-party boundary; they are modelled as explicit oracle inputs, while
every line of the repository's own logic is translated directly.
-/

namespace WiseTestAI

/-- Python strings are modelled as lists of characters. -/
abbrev Str := List Char

/-- Shorthand to turn a Lean string literal into the model's string type. -/
def str (s : String) : Str := s.data

/-- ASCII lowercasing of one character, the effect of Python `str.lower`
on the ASCII inputs this development evaluates. -/
def lowerChar (c : Char) : Char := c.toLower

/-- Python `str.lower`. -/
def pyLower (s : Str) : Str := s.map lowerChar

/-- Python whitespace test used by `str.strip` / `str.split`. -/
def isWs (c : Char) : Bool := c = ' ' || c = '\t' || c = '\n' || c = '\r' || c = '\x0b' || c = '\x0c'

/-- Python `str.lstrip()`. -/
def lstrip (s : Str) : Str := s.dropWhile isWs

/-- Python `str.rstrip()`. -/
def rstrip (s : Str) : Str := (s.reverse.dropWhile isWs).reverse

/-- Python `str.strip()`. -/
def pyStrip (s : Str) : Str := rstrip (lstrip s)

/-- Python `str.strip(chars)`: drop the given characters from both ends. -/
def stripChars (chars : Str) (s : Str) : Str :=
  ((s.dropWhile (chars.contains ·)).reverse.dropWhile (chars.contains ·)).reverse

/-- Python `str.startswith`. -/
def startsWith : Str → Str → Bool
  | _, [] => true
  | [], _ :: _ => false
  | c :: cs, p :: ps => c = p && startsWith cs ps

/-- Python `str.endswith`. -/
def endsWith (s p : Str) : Bool := startsWith s.reverse p.reverse

/-- Python `sub in s` substring containment. -/
def isSubstr (sub s : Str) : Bool :=
  match s with
  | [] => sub.isEmpty
  | _ :: rest => startsWith s sub || isSubstr sub rest

/-- Python `str.split()` with no argument: split on whitespace runs,
dropping empty fields. -/
def pySplitWs (s : Str) : List Str :=
  let rec go (s : Str) (cur : Str) (acc : List Str) : List Str :=
    match s with
    | [] => if cur.isEmpty then acc.reverse else (cur.reverse :: acc).reverse
    | c :: rest =>
        if isWs c then
          if cur.isEmpty then go rest [] acc else go rest [] (cur.reverse :: acc)
        else go rest (c :: cur) acc
  go s [] []

/-- Python `str.split(sep)` (all occurrences of a one-character separator). -/
def pySplitChar (sep : Char) (s : Str) : List Str :=
  let rec go (s : Str) (cur : Str) (acc : List Str) : List Str :=
    match s with
    | [] => (cur.reverse :: acc).reverse
    | c :: rest =>
        if c = sep then go rest [] (cur.reverse :: acc)
        else go rest (c :: cur) acc
  go s [] []

/-- Python `str.split(sep, 1)`: split at the first occurrence only. -/
def pySplitCharOnce (sep : Char) (s : Str) : List Str :=
  let rec go (pre : Str) (s : Str) : List Str :=
    match s with
    | [] => [pre.reverse]
    | c :: rest => if c = sep then [pre.reverse, rest] else go (c :: pre) rest
  go [] s

/-- Python `str.replace(old, new)` for nonempty `old` (every call site in
this development replaces a nonempty literal). -/
def pyReplace (old new : Str) : Str → Str
  | [] => []
  | c :: rest =>
      if _h : 0 < old.length ∧ startsWith (c :: rest) old then
        new ++ pyReplace old new ((c :: rest).drop old.length)
      else
        c :: pyReplace old new rest
termination_by s => s.length
decreasing_by
  · simp only [List.length_drop, List.length_cons]
    omega
  · simp

/-- Insertion-ordered association list modelling a Python `dict`. -/
abbrev Dict (α : Type _) := List (Str × α)

/-- Python `d[k]` lookup (first binding wins; Python dicts never hold
duplicate keys, and `dset` preserves that). -/
def dget {α} (d : Dict α) (k : Str) : Option α :=
  match d with
  | [] => none
  | (k', v) :: rest => if k' = k then some v else dget rest k

/-- Python `k in d`. -/
def dmem {α} (d : Dict α) (k : Str) : Bool :=
  match d with
  | [] => false
  | (k', _) :: rest => k' = k || dmem rest k

/-- Python `d[k] = v`: replace in place if present, else append,
preserving insertion order. -/
def dset {α} (d : Dict α) (k : Str) (v : α) : Dict α :=
  match d with
  | [] => [(k, v)]
  | (k', v') :: rest => if k' = k then (k, v) :: rest else (k', v') :: dset rest k v

/-- Python `d.pop(k)`: the dict without key `k`. -/
def dpop {α} (d : Dict α) (k : Str) : Dict α :=
  match d with
  | [] => []
  | (k', v') :: rest => if k' = k then rest else (k', v') :: dpop rest k

/-! ## Configuration Manager (`src/core/config_manager.py`)

YAML documents are modelled by the inductive `YVal`; the YAML parser is
the third-party boundary, so `load_config` is embedded from the point
where the base and environment documents have been parsed. -/

/-- A parsed YAML value. -/
inductive YVal where
  | int (n : Int)
  | strv (s : Str)
  | list (xs : List YVal)
  | map (m : List (Str × YVal))

instance : Inhabited YVal := ⟨.int 0⟩

/-- `ConfigManager._merge_configs`: right-biased deep merge.  Mirrors the
Python loop `for key, value in override.items()` over a copy of `base`. -/
def mergeConfigs : Dict YVal → Dict YVal → Dict YVal
  | base, [] => base
  | base, (k, .map vm) :: rest =>
      (match dget base k with
       | some (.map bm) => mergeConfigs (dset base k (.map (mergeConfigs bm vm))) rest
       | _ => mergeConfigs (dset base k (.map vm)) rest)
  | base, (k, v) :: rest => mergeConfigs (dset base k v) rest
termination_by _ ovr => sizeOf ovr
decreasing_by
  · simp
    omega
  · simp
  · simp
  · simp

/-- `ConfigManager._apply_overrides`: for each top-level key of the
`overrides` section, merge shallowly into the base map when both sides
are maps, else replace/insert outright. -/
def applyOverrides (base : Dict YVal) : Dict YVal → Dict YVal
  | [] => base
  | (sect, values) :: rest =>
      let base' :=
        if dmem base sect then
          match values with
          | .map vm =>
              (match dget base sect with
               | some (.map bm) => dset base sect (.map (vm.foldl (fun m kv => dset m kv.1 kv.2) bm))
               | _ => dset base sect values)
          | _ => dset base sect values
        else dset base sect values
      applyOverrides base' rest

/-- `ConfigManager._process_env_vars`: replace `"${NAME}"` string leaves
by the process environment variable `NAME` when set.  `env` is the
process environment. -/
def processEnvVars (env : Str → Option Str) : YVal → YVal
  | .int n => .int n
  | .strv s =>
      if startsWith s (str "$\x7b") && endsWith s (str "\x7d") then
        let varName := (s.drop 2).dropLast
        match env varName with
        | some v => .strv v
        | none => .strv s
      else .strv s
  | .list xs => .list (xs.attach.map fun x => processEnvVars env x.1)
  | .map m => .map (m.attach.map fun kv => (kv.1.1, processEnvVars env kv.1.2))
decreasing_by
  · have := List.sizeOf_lt_of_mem x.2
    simp at this ⊢
    omega
  · obtain ⟨⟨k, v⟩, hm⟩ := kv
    have := List.sizeOf_lt_of_mem hm
    simp at this ⊢
    omega

/-- `ConfigManager.load_config`, embedded from the point where the base
document and (optionally) the environment document have been parsed.
Peels off the environment document's `overrides` key, applies it to the
base first, deep-merges the remainder, then substitutes environment
variables.  Returns `none` where the Python would crash (an `overrides`
section that is not a map). -/
def loadConfig (env : Str → Option Str) (base : Dict YVal)
    (envDoc : Option (Dict YVal)) : Option (Dict YVal) :=
  let afterMerge : Option (Dict YVal) :=
    match envDoc with
    | none => some base
    | some envConfig =>
        if dmem envConfig (str "overrides") then
          match dget envConfig (str "overrides") with
          | some (.map ovm) =>
              let envConfig' := dpop envConfig (str "overrides")
              let base' := applyOverrides base ovm
              some (mergeConfigs base' envConfig')
          | _ => none
        else some (mergeConfigs base envConfig)
  afterMerge.map fun cfg =>
    match processEnvVars env (.map cfg) with
    | .map m => m
    | _ => cfg

/-- `ConfigManager.get`: dot-notation lookup. -/
def configGet (cfg : Dict YVal) (key : Str) (dflt : Option YVal) : Option YVal :=
  let keys := pySplitChar '.' key
  let rec go (v : YVal) : List Str → Option YVal
    | [] => some v
    | k :: ks =>
        match v with
        | .map m => match dget m k with
                    | some v' => go v' ks
                    | none => dflt
        | _ => dflt
  go (.map cfg) keys

/-! Concrete documents for the configuration-merge claim. -/

/-- Base document `{a: {x: 1, y: 2}}`. -/
def baseDocC3 : Dict YVal :=
  [(str "a", .map [(str "x", .int 1), (str "y", .int 2)])]

/-- Environment document `{overrides: {a: {y: 9}}}`. -/
def envDocOverridesC3 : Dict YVal :=
  [(str "overrides", .map [(str "a", .map [(str "y", .int 9)])])]

/-- Environment document `{a: {z: 3}}`. -/
def envDocPlainC3 : Dict YVal :=
  [(str "a", .map [(str "z", .int 3)])]

/-- C3: loading `{a: {x: 1, y: 2}}` with an environment document carrying
`overrides: {a: {y: 9}}` yields `{a: {x: 1, y: 9}}` (override keys merged
shallowly into the base map), while loading it with the plain environment
document `{a: {z: 3}}` yields `{a: {x: 1, y: 2, z: 3}}` (right-biased
deep merge).  Holds for every process environment, since these documents
contain no `${NAME}` leaves. -/
theorem config_merge_precedence (env : Str → Option Str) :
    loadConfig env baseDocC3 (some envDocOverridesC3) =
      some [(str "a", .map [(str "x", .int 1), (str "y", .int 9)])] ∧
    loadConfig env baseDocC3 (some envDocPlainC3) =
      some [(str "a", .map [(str "x", .int 1), (str "y", .int 2), (str "z", .int 3)])] := by
  constructor <;>
    simp [loadConfig, baseDocC3, envDocOverridesC3, envDocPlainC3, mergeConfigs,
      applyOverrides, processEnvVars, dget, dmem, dset, dpop, str, startsWith, endsWith]

/-! ## Cache Manager (`src/core/cache_manager.py`)

The cache file holds one JSON document per project of shape
`{key: {value: ..., timestamp: epoch-seconds}}`.  JSON (de)serialization
is the third-party boundary: per the claim the stored values are
JSON-representable, so persistence is modelled as storing the entry map
itself.  Timestamps are epoch seconds (`Int` in the model). -/

/-- One persisted cache entry: `{value, timestamp}`. -/
structure CacheEntry (V : Type _) where
  value : V
  timestamp : Int
deriving DecidableEq

/-- `CacheManager._clean_expired`: drop every entry whose age exceeds the
TTL (`current_time - timestamp > ttl`). -/
def cleanExpired {V} (now ttl : Int) (cache : Dict (CacheEntry V)) : Dict (CacheEntry V) :=
  cache.filter fun e => !(now - e.2.timestamp > ttl)

/-- `CacheManager.set_project` name normalization: lowercase, spaces to
underscores. -/
def normalizeProject (s : Str) : Str :=
  (pyLower s).map fun c => if c = ' ' then '_' else c

/-- `CacheManager._load_cache` on a fresh manager (in-memory cache empty):
read the project's file if it exists, then prune expired entries. -/
def loadCacheFile {V} (now ttl : Int) (file : Option (Dict (CacheEntry V))) :
    Dict (CacheEntry V) :=
  match file with
  | some c => cleanExpired now ttl c
  | none => []

/-- `CacheManager.save_cache`: store `{value, timestamp: now}` under the
key; `_save_cache` then persists the whole in-memory cache, so the file
mirrors the returned dict. -/
def saveCache {V} (cache : Dict (CacheEntry V)) (k : Str) (v : V) (now : Int) :
    Dict (CacheEntry V) :=
  dset cache k ⟨v, now⟩

/-- `CacheManager.get`: return the stored value only if present and not
expired at read time. -/
def cacheGet {V} (now ttl : Int) (cache : Dict (CacheEntry V)) (k : Str) : Option V :=
  match dget cache k with
  | some e => if now - e.timestamp ≤ ttl then some e.value else none
  | none => none

/-- A sequence of `save_cache` calls: each write is (key, value, time). -/
def applyWrites {V} (writes : List (Str × V × Int)) (cache : Dict (CacheEntry V)) :
    Dict (CacheEntry V) :=
  writes.foldl (fun c w => saveCache c w.1 w.2.1 w.2.2) cache

lemma dmem_append {α} (a b : Dict α) (k : Str) :
    dmem (a ++ b) k = (dmem a k || dmem b k) := by
  induction a with
  | nil => simp [dmem]
  | cons hd tl ih => cases hd; simp [dmem, ih, Bool.or_assoc]

lemma dset_eq_append {α} (d : Dict α) (k : Str) (v : α) (h : dmem d k = false) :
    dset d k v = d ++ [(k, v)] := by
  induction d with
  | nil => simp [dset]
  | cons hd tl ih =>
      cases hd with
      | mk k' v' =>
          simp [dmem, Bool.or_eq_false_iff] at h
          simp [dset, h.1, ih h.2]

lemma applyWrites_fresh {V} (writes : List (Str × V × Int)) (acc : Dict (CacheEntry V))
    (hfresh : ∀ w ∈ writes, dmem acc w.1 = false)
    (hnodup : (writes.map Prod.fst).Nodup) :
    applyWrites writes acc = acc ++ writes.map (fun w => (w.1, CacheEntry.mk w.2.1 w.2.2)) := by
  induction writes generalizing acc with
  | nil => simp [applyWrites]
  | cons w ws ih =>
      have hw : dmem acc w.1 = false := hfresh w (by simp)
      have hnd := hnodup
      simp only [List.map_cons, List.nodup_cons] at hnd
      have step : applyWrites (w :: ws) acc = applyWrites ws (dset acc w.1 ⟨w.2.1, w.2.2⟩) := rfl
      rw [step, dset_eq_append _ _ _ hw, ih _ ?_ hnd.2]
      · simp
      · intro w' hw'
        rw [dmem_append]
        have h1 : dmem acc w'.1 = false := hfresh w' (by simp [hw'])
        have h2 : w.1 ≠ w'.1 := by
          intro hek
          exact hnd.1 (hek ▸ List.mem_map_of_mem Prod.fst hw')
        simp [h1, dmem, h2]

/-- C5: cache persistence round trip.  Writing `N` entries with distinct
keys via `save_cache` and re-loading the same project's cache file on a
fresh manager yields exactly those entries with identical values and
timestamps, minus the subset pruned because its age at load time exceeds
the TTL. -/
theorem cache_persistence_roundtrip {V} (writes : List (Str × V × Int)) (ttl T : Int)
    (hnodup : (writes.map Prod.fst).Nodup) :
    loadCacheFile T ttl (some (applyWrites writes [])) =
      (writes.map (fun w => (w.1, CacheEntry.mk w.2.1 w.2.2))).filter
        (fun e => !(T - e.2.timestamp > ttl)) := by
  rw [loadCacheFile, applyWrites_fresh writes [] (by intro w _; rfl) hnodup]
  simp [cleanExpired]

/-- Witness for C5 at a concrete instance: two entries, one of which is
pruned at load time because its age exceeds the TTL and one of which
survives with its value intact. -/
theorem cache_persistence_roundtrip_witness :
    ((([(str "k1", (5 : Nat), (10 : Int)), (str "k2", 7, 100)]).map Prod.fst).Nodup) ∧
    loadCacheFile 86500 86400 (some (applyWrites [(str "k1", (5 : Nat), (10 : Int)), (str "k2", 7, 100)] [])) =
      (([(str "k1", (5 : Nat), (10 : Int)), (str "k2", 7, 100)]).map
          (fun w => (w.1, CacheEntry.mk w.2.1 w.2.2))).filter
        (fun e => !((86500 : Int) - e.2.timestamp > 86400)) :=
  ⟨by decide, cache_persistence_roundtrip [(str "k1", (5 : Nat), (10 : Int)), (str "k2", 7, 100)]
      86400 86500 (by decide)⟩

/-! ## Test Executor (`src/executor/test_executor.py`)

`StepExecutor.execute_step` is a total call in the source: an action
handler that raises is caught inside `execute_step` and reported as a
`{status: failed, ...}` record.  The scenario loop is therefore embedded
over the list of step outcomes that `execute_step` would produce, one
per step of the scenario (the browser boundary). -/

/-- Outcome of `execute_step` for one step: its `status` field plus the
step's source text and optional error. -/
structure StepOutcome where
  stText : Str
  stStatus : Str
  stError : Option Str
deriving DecidableEq

/-- The `for step in scenario.steps` loop of `TestExecutor._execute_scenario`
(lines 100-116): record each step result in order and stop at the first
one whose status is "failed".  Returns (recorded results, final scenario
status, recorded error). -/
def scenarioStepLoop : List StepOutcome → List StepOutcome × Str × Option Str
  | [] => ([], str "passed", none)
  | o :: rest =>
      if o.stStatus = str "failed" then ([o], str "failed", o.stError)
      else
        let (rs, st, er) := scenarioStepLoop rest
        (o :: rs, st, er)

/-- Result record built by `_execute_scenario` (screenshot capture and
browser shutdown in the `finally` block are the browser boundary). -/
structure ScenarioResult where
  srStatus : Str
  srSteps : List StepOutcome
  srError : Option Str
deriving DecidableEq

/-- `TestExecutor._execute_scenario` after the browser/page setup: run
the background steps first (a failing background step raises, is caught,
and fails the scenario with no recorded scenario StepResults), then run
the scenario steps with the first-failure halt. -/
def execScenario (bg : Option (List StepOutcome)) (outs : List StepOutcome) : ScenarioResult :=
  let bgFail : Option StepOutcome :=
    match bg with
    | some bgOuts => bgOuts.find? (fun o => o.stStatus = str "failed")
    | none => none
  match bgFail with
  | some o => ⟨str "failed", [], some (str "Background step failed: " ++ o.stText)⟩
  | none =>
      let (rs, st, er) := scenarioStepLoop outs
      ⟨st, rs, er⟩

/-- C6: the first failed step halts the scenario.  For a scenario (with
no background) whose steps produce outcomes `pre ++ [o] ++ post` where
every outcome in `pre` passed and `o` failed, exactly the results
`pre ++ [o]` are recorded — nothing from `post` is ever run — and the
scenario's overall status is "failed".  Instantiated at 3 steps with
step 2 failing, this gives exactly 2 recorded StepResults. -/
theorem step_failure_halts_scenario (pre post : List StepOutcome) (o : StepOutcome)
    (hpre : ∀ p ∈ pre, p.stStatus = str "passed") (hfail : o.stStatus = str "failed") :
    (execScenario none (pre ++ o :: post)).srSteps = pre ++ [o] ∧
    (execScenario none (pre ++ o :: post)).srStatus = str "failed" := by
  have key : scenarioStepLoop (pre ++ o :: post) = (pre ++ [o], str "failed", o.stError) := by
    induction pre with
    | nil => simp [scenarioStepLoop, hfail]
    | cons p ps ih =>
        have hp : p.stStatus = str "passed" := hpre p (by simp)
        have hps : ∀ q ∈ ps, q.stStatus = str "passed" := fun q hq => hpre q (by simp [hq])
        have hne : ¬ p.stStatus = str "failed" := by
          rw [hp]; intro hc
          have : "passed".data = "failed".data := hc
          simp_all [str]
        simp [scenarioStepLoop, hne, ih hps]
  simp [execScenario, key]

/-- Witness for C6: a concrete 3-step scenario where step 1 passes and
step 2 fails records exactly 2 results and fails overall. -/
theorem step_failure_halts_scenario_witness :
    ((∀ p ∈ [⟨str "step one", str "passed", none⟩],
        StepOutcome.stStatus p = str "passed") ∧
      StepOutcome.stStatus ⟨str "step two", str "failed", some (str "boom")⟩ = str "failed") ∧
    (execScenario none ([⟨str "step one", str "passed", none⟩] ++
        ⟨str "step two", str "failed", some (str "boom")⟩ :: [⟨str "step three", str "passed", none⟩])).srSteps =
      [⟨str "step one", str "passed", none⟩] ++ [⟨str "step two", str "failed", some (str "boom")⟩] ∧
    (execScenario none ([⟨str "step one", str "passed", none⟩] ++
        ⟨str "step two", str "failed", some (str "boom")⟩ :: [⟨str "step three", str "passed", none⟩])).srStatus =
      str "failed" :=
  ⟨⟨by decide, by decide⟩,
    step_failure_halts_scenario [⟨str "step one", str "passed", none⟩]
      [⟨str "step three", str "passed", none⟩]
      ⟨str "step two", str "failed", some (str "boom")⟩ (by decide) (by decide)⟩

/-! ## Browser Manager (`src/core/browser_manager.py`)

`stop()` is embedded over the four held handles.  Each handle is the
browser-engine boundary: it is modelled as `Option Bool`, present or not,
and carrying whether its `close()`/`stop()` call raises.  `stop()` in the
source guards each close only with a truthiness check on the handle
(`if self.page: self.page.close()`), with no try/except, so a raising
close propagates out of `stop()` immediately. -/

/-- The handles held by a `BrowserManager` at `stop()` time: `page`,
`context`, `browser`, `playwright`; `some b` is a live handle whose close
call raises iff `b` is true. -/
structure BMHandles where
  bmPage : Option Bool
  bmContext : Option Bool
  bmBrowser : Option Bool
  bmPlaywright : Option Bool
deriving DecidableEq, Fintype

/-- Run a sequence of named close calls: skip absent handles, perform
present ones in order, and abort (exception propagation) at the first
close that raises.  Returns the names of the closes that were attempted
and whether `stop()` returned normally. -/
def closeSeq : List (Str × Option Bool) → List Str × Bool
  | [] => ([], true)
  | (_, none) :: rest => closeSeq rest
  | (name, some fails) :: rest =>
      if fails then ([name], false)
      else
        let (as, ok) := closeSeq rest
        (name :: as, ok)

/-- `BrowserManager.stop()`: close page, then context, then browser, then
stop the playwright driver. -/
def browserStop (st : BMHandles) : List Str × Bool :=
  closeSeq [(str "page", st.bmPage), (str "context", st.bmContext),
            (str "browser", st.bmBrowser), (str "playwright", st.bmPlaywright)]

/-- The close plan: the present handles, in close order, with their
failure flags. -/
def closePlan (st : BMHandles) : List (Str × Bool) :=
  ([(str "page", st.bmPage), (str "context", st.bmContext),
    (str "browser", st.bmBrowser), (str "playwright", st.bmPlaywright)]).filterMap
    fun nh => nh.2.map fun b => (nh.1, b)

/-- C8 counterexample: with all four handles live and the page close
raising, `stop()` attempts only the page close — the context, browser and
driver stages are never attempted, so a failure at one stage does prevent
the next stages from attempting cleanup, contradicting the claim. -/
theorem stop_not_fault_guarded :
    browserStop ⟨some true, some false, some false, some false⟩ = ([str "page"], false) ∧
    (str "context") ∉ (browserStop ⟨some true, some false, some false, some false⟩).1 := by
  decide

/-- C8 amended: `stop()` closes page, then context, then browser, then
the driver connection, each stage guarded only by the handle's existence;
the stages are not individually fault-tolerant — the attempted closes are
exactly the present handles in that order up to and including the first
whose close raises, and every later stage is skipped. -/
theorem stop_close_order_unguarded :
    ∀ st : BMHandles,
      browserStop st =
        (((closePlan st).takeWhile (fun nb => !nb.2)).map Prod.fst ++
           (((closePlan st).dropWhile (fun nb => !nb.2)).take 1).map Prod.fst,
         (closePlan st).all (fun nb => !nb.2)) := by
  decide

/-! ## Step Executor: `_handle_verify_table` (`src/executor/step_executor.py`)

The Playwright layer is the boundary: table location, header-cell text
extraction and candidate-row collection are DOM queries, so the handler
is embedded from the point where the extracted header texts
(`actual_headers`) and the candidate data rows (each row the list of its
`td` cell texts) are in hand.  The four successive cell-text extraction
methods all read the same cell, so cell text is the cell's string,
stripped.  The last-resort page-wide row scan (only reached when the
candidate rows all get filtered away) is part of the same DOM boundary
and is modelled as finding nothing. -/

/-- An apostrophe, used by the handler's error messages. -/
def sq : Str := [Char.ofNat 39]

/-- Python `sep.join(parts)`. -/
def joinSep (sep : Str) : List Str → Str
  | [] => []
  | [p] => p
  | p :: rest => p ++ sep ++ joinSep sep rest

/-- Decimal digit character. -/
def digitChar (d : Nat) : Char := Char.ofNat (48 + d)

/-- Decimal rendering helper, fuelled for structural termination. -/
def natStrAux : Nat → Nat → Str
  | 0, _ => []
  | fuel + 1, n => if n < 10 then [digitChar n] else natStrAux fuel (n / 10) ++ [digitChar (n % 10)]

/-- Decimal rendering of a row/column index. -/
def natStr (n : Nat) : Str := natStrAux (n + 1) n

/-- Column-map construction (lines 2459-2472): map each expected header
to the first actual header matching exactly (case-insensitive), else to
the first matching by substring in either direction. -/
def buildColumnMap (expectedHeaders actualHeaders : List Str) : Dict Nat :=
  expectedHeaders.foldl
    (fun cm eh =>
      let cm :=
        match actualHeaders.findIdx? (fun ah => pyLower ah = pyLower eh) with
        | some i => dset cm eh i
        | none => cm
      if dmem cm eh then cm
      else
        match actualHeaders.findIdx? (fun ah =>
            isSubstr (pyLower eh) (pyLower ah) || isSubstr (pyLower ah) (pyLower eh)) with
        | some i => dset cm eh i
        | none => cm)
    []

/-- Candidate-row filtering (lines 2496-2508): keep rows that have at
least one cell and whose first cell's stripped text is not one of the
actual headers (the heuristic header-row exclusion). -/
def filterDataRows (actualHeaders : List Str) (rows : List (List Str)) : List (List Str) :=
  rows.filter fun row =>
    match row with
    | [] => false
    | c :: _ => !(actualHeaders.contains (pyStrip c))

/-- One per-cell verification record (the entries of `row_result['details']`). -/
structure CellDetail where
  cdHeader : Str
  cdStatus : Str
  cdExpected : Option Str
  cdActual : Option Str
  cdMessage : Option Str
deriving DecidableEq

/-- One per-row verification record. -/
structure RowResult where
  rrRow : Nat
  rrStatus : Str
  rrDetails : List CellDetail
deriving DecidableEq

/-- Cell text extraction (methods 1-4, lines 2587-2634): the stripped
text of the cell. -/
def extractCellText (cell : Str) : Str := pyStrip cell

/-- The per-row verification loop (lines 2554-2671): walk the expected
row's cells positionally against the expected headers, compare through
the column map with wildcard / exact / partial-substring semantics, and
mark the row failed on any genuine mismatch or missing cell. -/
def verifyOneRow (cm : Dict Nat) (expectedHeaders : List Str) (rowIdx : Nat)
    (cells : List Str) (expectedRow : List Str) : RowResult :=
  let folded := expectedRow.enum.foldl
    (fun (acc : Str × List CellDetail) hi_ev =>
      let (rowStatus, details) := acc
      let headerIndex := hi_ev.1
      let expectedValue := hi_ev.2
      if headerIndex ≥ expectedHeaders.length then acc
      else
        let header := expectedHeaders.getD headerIndex []
        match dget cm header with
        | none =>
            (rowStatus, details ++ [⟨header, str "skipped", none, none,
              some (str "Header \"" ++ header ++ str "\" not found in table")⟩])
        | some columnIndex =>
            if columnIndex ≥ cells.length then
              (str "failed", details ++ [⟨header, str "failed", some expectedValue,
                some (str "Cell not found"),
                some (str "Column " ++ natStr columnIndex ++ str " not found in row")⟩])
            else
              let actualValue := extractCellText (cells.getD columnIndex [])
              if pyStrip expectedValue = str "*" ∨ pyStrip expectedValue = [] then
                (rowStatus, details ++ [⟨header, str "skipped", none, some actualValue,
                  some (str "Wildcard match")⟩])
              else if pyLower actualValue = pyLower expectedValue then
                (rowStatus, details ++ [⟨header, str "passed", some expectedValue,
                  some actualValue, none⟩])
              else if isSubstr (pyLower expectedValue) (pyLower actualValue) ||
                  isSubstr (pyLower actualValue) (pyLower expectedValue) then
                (rowStatus, details ++ [⟨header, str "passed", some expectedValue,
                  some actualValue, some (str "Partial match")⟩])
              else
                (str "failed", details ++ [⟨header, str "failed", some expectedValue,
                  some actualValue, none⟩]))
    (str "passed", [])
  ⟨rowIdx, folded.1, folded.2⟩

/-- The aggregated failure message (lines 2679-2691): one clause per
failed row that has failed details, each listing every failing cell. -/
def tableErrorMessage (results : List RowResult) : Str :=
  let errorDetails := results.filterMap fun r =>
    if r.rrStatus = str "failed" then
      let rowErrors := r.rrDetails.filterMap fun d =>
        if d.cdStatus = str "failed" then
          some (d.cdHeader ++ str ": expected " ++ sq ++ d.cdExpected.getD [] ++ sq ++
            str " but got " ++ sq ++ d.cdActual.getD [] ++ sq)
        else none
      if rowErrors.isEmpty then none
      else some (str "Row " ++ natStr r.rrRow ++ str ": " ++ joinSep (str "; ") rowErrors)
    else none
  str "Table verification failed. " ++ joinSep (str ". ") errorDetails

/-- `StepExecutor._handle_verify_table`, embedded over the attached data
table, the extracted actual header texts and the collected candidate
rows.  Returns the number of expected rows checked on success, the
raised exception's message on failure. -/
def handleVerifyTable (dataTable : List (List Str)) (actualHeaders : List Str)
    (candidateRows : List (List Str)) : Except Str Nat :=
  if dataTable.length < 2 then
    .error (str "Table verification requires a data table with headers and at least one row of expected values")
  else
    let expectedHeaders := dataTable.headD []
    let expectedRows := dataTable.tail
    let cm := buildColumnMap expectedHeaders actualHeaders
    let tableRows := filterDataRows actualHeaders candidateRows
    if tableRows.isEmpty then .error (str "No data rows found in table")
    else
      let results := expectedRows.enum.map fun ri_er =>
        if ri_er.1 ≥ tableRows.length then
          ⟨ri_er.1, str "failed", []⟩
        else verifyOneRow cm expectedHeaders ri_er.1 (tableRows.getD ri_er.1 []) ri_er.2
      if results.all fun r => r.rrStatus = str "passed" then .ok expectedRows.length
      else .error (tableErrorMessage results)

/-- The claim's attached data table
`[["Name","Status"],["Alice","*"],["Bob","Active"]]`. -/
def tableC1 : List (List Str) :=
  [[str "Name", str "Status"], [str "Alice", str "*"], [str "Bob", str "Active"]]

/-- C1 counterexample: against a page table whose second data row is
`Bob / Inactive`, verification does NOT fail — it succeeds, because
"Active" is a substring of "Inactive" and a substring match in either
direction counts as a "partial match" pass, so no error message naming
row 1's "Status" is ever produced. -/
theorem verify_table_claim_false :
    handleVerifyTable tableC1 [str "Name", str "Status"]
      [[str "Alice", str "Active"], [str "Bob", str "Inactive"]] = .ok 2 := by
  rfl

/-- C1 amended: with the same expected table, (1) the verification
succeeds for every actual Status of the `Alice` row (`*` is a wildcard)
when the `Bob` row's actual Status is "Inactive", since "Active" vs
"Inactive" passes as a partial (substring) match; and (2) only an actual
value with no substring relation to "Active" (here "Pending") makes the
verification fail, with an error message naming row 1's "Status"
mismatch while the `Alice` row still passes. -/
theorem verify_table_wildcard_and_partial (aliceStatus : Str) :
    handleVerifyTable tableC1 [str "Name", str "Status"]
      [[str "Alice", aliceStatus], [str "Bob", str "Inactive"]] = .ok 2 ∧
    handleVerifyTable tableC1 [str "Name", str "Status"]
      [[str "Alice", aliceStatus], [str "Bob", str "Pending"]] =
      .error (str "Table verification failed. Row 1: Status: expected " ++ sq ++
        str "Active" ++ sq ++ str " but got " ++ sq ++ str "Pending" ++ sq) := by
  constructor <;> rfl

/-! ## A Python-`re` evaluator

The step classifier and the API executor's variable resolution are built
on Python regular expressions; this section gives a backtracking matcher
with Python `re` semantics (leftmost alternation, greedy/lazy
repetition, positional capture groups, `re.IGNORECASE`) for exactly the
constructs the repository's patterns use.  Repetition is fuelled; fuelled
recursion depth is bounded by pattern size times input length, and every
call site supplies fuel beyond that bound. -/

/-- Regular-expression abstract syntax: the constructs appearing in the
repository's patterns.  `lit`/`cls` match case-insensitively (every
compiled pattern in the source carries `re.IGNORECASE`). -/
inductive Re where
  | eps
  | anyc
  | lit (s : Str)
  | cls (cs : Str) (neg : Bool)
  | ws
  | digit
  | seq (a b : Re)
  | alt (a b : Re)
  | opt (a : Re)
  | star (a : Re)
  | starL (a : Re)
  | plus (a : Re)
  | plusL (a : Re)
  | grp (idx : Nat) (a : Re)
  | eos

/-- Captured groups: group index to captured text. -/
abbrev Caps := List (Nat × Str)

/-- Record a group capture (a later capture of the same group replaces
the earlier one, as in Python). -/
def capsSet (caps : Caps) (i : Nat) (v : Str) : Caps :=
  match caps with
  | [] => [(i, v)]
  | (j, w) :: rest => if j = i then (i, v) :: rest else (j, w) :: capsSet rest i v

/-- Look up a captured group. -/
def capsGet (caps : Caps) (i : Nat) : Option Str :=
  match caps with
  | [] => none
  | (j, w) :: rest => if j = i then some w else capsGet rest i

/-- Consume a literal, case-insensitively. -/
def litConsume : Str → Str → Option Str
  | [], s => some s
  | _ :: _, [] => none
  | p :: ps, c :: cs => if lowerChar c = lowerChar p then litConsume ps cs else none

/-- The backtracking matcher in continuation-passing style.  `mat fuel re
s caps k` matches `re` at the head of `s` and passes the remainder and
captures to `k`; alternatives are tried left first, greedy repetition
longest first, lazy repetition shortest first, mirroring Python's
backtracking order. -/
def mat : Nat → Re → Str → Caps → (Str → Caps → Option (Str × Caps)) → Option (Str × Caps)
  | 0, _, _, _, _ => none
  | fuel + 1, re, s, caps, k =>
    match re with
    | .eps => k s caps
    | .anyc =>
        match s with
        | [] => none
        | c :: rest => if c = '\n' then none else k rest caps
    | .lit l =>
        match litConsume l s with
        | some rest => k rest caps
        | none => none
    | .cls cs neg =>
        match s with
        | [] => none
        | c :: rest =>
            let inside := cs.any fun d => lowerChar d = lowerChar c
            if (inside && !neg) || (!inside && neg) then k rest caps else none
    | .ws =>
        match s with
        | [] => none
        | c :: rest => if isWs c then k rest caps else none
    | .digit =>
        match s with
        | [] => none
        | c :: rest => if c.isDigit then k rest caps else none
    | .seq a b => mat fuel a s caps fun s' caps' => mat fuel b s' caps' k
    | .alt a b =>
        match mat fuel a s caps k with
        | some r => some r
        | none => mat fuel b s caps k
    | .opt a =>
        match mat fuel a s caps k with
        | some r => some r
        | none => k s caps
    | .star a =>
        match mat fuel a s caps (fun s' caps' =>
            if s'.length = s.length then k s' caps'
            else mat fuel (.star a) s' caps' k) with
        | some r => some r
        | none => k s caps
    | .starL a =>
        match k s caps with
        | some r => some r
        | none =>
            mat fuel a s caps fun s' caps' =>
              if s'.length = s.length then none
              else mat fuel (.starL a) s' caps' k
    | .plus a => mat fuel (.seq a (.star a)) s caps k
    | .plusL a => mat fuel (.seq a (.starL a)) s caps k
    | .grp i a =>
        mat fuel a s caps fun s' caps' =>
          k s' (capsSet caps' i (s.take (s.length - s'.length)))
    | .eos => if s.isEmpty then k s caps else none

/-- Syntactic size of a pattern, for the fuel bound. -/
def reSize : Re → Nat
  | .seq a b => reSize a + reSize b + 1
  | .alt a b => reSize a + reSize b + 1
  | .opt a => reSize a + 1
  | .star a => reSize a + 1
  | .starL a => reSize a + 1
  | .plus a => reSize a + 3
  | .plusL a => reSize a + 3
  | .grp _ a => reSize a + 1
  | _ => 1

/-- Highest capture-group index in a pattern (Python's group count). -/
def reMaxGroup : Re → Nat
  | .seq a b => max (reMaxGroup a) (reMaxGroup b)
  | .alt a b => max (reMaxGroup a) (reMaxGroup b)
  | .opt a => reMaxGroup a
  | .star a => reMaxGroup a
  | .starL a => reMaxGroup a
  | .plus a => reMaxGroup a
  | .plusL a => reMaxGroup a
  | .grp i a => max i (reMaxGroup a)
  | _ => 0

/-- `re.match(pattern, s, re.IGNORECASE)`: anchored at the start, free at
the end.  Returns the captures on success. -/
def reMatch (re : Re) (s : Str) : Option Caps :=
  (mat ((reSize re + 4) * (s.length + 4) * 4) re s [] fun s' caps => some (s', caps)).map (·.2)

/-- `match.groups()`: the capture slots `1..n` in declaration order,
`none` for a group that did not participate. -/
def reGroups (re : Re) (caps : Caps) : List (Option Str) :=
  (List.range (reMaxGroup re)).map fun i => capsGet caps (i + 1)

/-- `re.findall` for a pattern with one capture group: scan left to
right, collecting non-overlapping matches' group 1. -/
def reFindAllG1 (re : Re) : Nat → Str → List Str
  | 0, _ => []
  | fuel + 1, s =>
    match mat ((reSize re + 4) * (s.length + 4) * 4) re s [] (fun s' caps => some (s', caps)) with
    | some (rest, caps) =>
        if rest.length = s.length then
          match s with
          | [] => []
          | _ :: t => reFindAllG1 re fuel t
        else
          (capsGet caps 1).getD [] :: reFindAllG1 re fuel rest
    | none =>
        match s with
        | [] => []
        | _ :: t => reFindAllG1 re fuel t

/-- Sequence a list of patterns. -/
def seqAll : List Re → Re
  | [] => .eps
  | [r] => r
  | r :: rest => .seq r (seqAll rest)

/-- Left-first alternation of a list of patterns. -/
def altAll : List Re → Re
  | [] => .eps
  | [r] => r
  | r :: rest => .alt r (altAll rest)

/-- Literal pattern from a Lean string literal. -/
def rlit (s : String) : Re := .lit s.data

/-- The characters of the `["\']` classes. -/
def quoteChars : Str := ['"', Char.ofNat 39]

/-- `["\']` (one quote character). -/
def qcls : Re := .cls quoteChars false

/-- `["\']*`. -/
def qstar : Re := .star qcls

/-- `\s+`. -/
def wsp : Re := .plus .ws

/-- `\s*`. -/
def wss : Re := .star .ws

/-! ## Feature Parser: action pattern library
(`FeatureParser._initialize_action_patterns`, `src/parser/feature_parser.py`)

Each bucket below transliterates one entry of the Python pattern dict:
the regex list, the action name and the ordered parameter names.
Capturing groups are numbered in source order. -/

/-- One entry of the action-pattern table. -/
structure ActionInfo where
  patterns : List Re
  action : Str
  params : List Str

/-- `(?:checkbox|check\s*box)`. -/
def chkboxRe : Re := altAll [rlit "checkbox", seqAll [rlit "check", wss, rlit "box"]]

/-- `radio\s*(?:button)?`. -/
def radioBtnRe : Re := seqAll [rlit "radio", wss, .opt (rlit "button")]

/-- Navigation patterns. -/
def navigateInfo : ActionInfo where
  patterns :=
    [seqAll [.opt (rlit "i "), altAll [rlit "open", rlit "navigate to", rlit "go to",
        rlit "visit", rlit "access"], rlit " ", .opt (rlit "the "),
      .opt (altAll [rlit "url ", rlit "page ", rlit "site "]), .grp 1 (.plus .anyc)],
     seqAll [altAll [rlit "i am", rlit "user is"], rlit " on ", .opt (rlit "the "),
      .grp 1 (.plus .anyc), rlit " page"],
     seqAll [.opt (rlit "the "), altAll [rlit "url", rlit "page"], rlit " is ",
      .grp 1 (.plus .anyc)]]
  action := str "navigate"
  params := [str "url"]

/-- Select/dropdown patterns (before click, as the source stresses). -/
def selectInfo : ActionInfo where
  patterns :=
    [seqAll [.opt (rlit "i "), rlit "select", wsp, qstar, .grp 1 (.plusL .anyc), qstar, wsp,
      rlit "from", wsp, .opt (.seq (rlit "the") wsp), qstar, .grp 2 (.plusL .anyc), qstar, wss,
      .opt (altAll [rlit "dropdown", rlit "select", rlit "list", rlit "listbox",
        rlit "combobox"]), .eos],
     seqAll [.opt (rlit "i "), rlit "select", wsp, qstar, .grp 1 (.plusL .anyc), qstar, wsp,
      rlit "in", wsp, .grp 2 (.plusL .anyc), .eos],
     seqAll [.opt (rlit "i "), rlit "choose", wsp, qstar, .grp 1 (.plusL .anyc), qstar, wsp,
      altAll [rlit "from", rlit "in"], wsp, .opt (.seq (rlit "the") wsp), qstar,
      .grp 2 (.plusL .anyc), qstar, .eos],
     seqAll [altAll [rlit "from", rlit "in"], wsp, .opt (.seq (rlit "the") wsp), qstar,
      .grp 1 (.plusL .anyc), qstar, wsp,
      .opt (altAll [.seq (rlit "dropdown") wsp, .seq (rlit "select") wsp]),
      .opt (.seq (rlit "i") wsp), rlit "select", wsp, qstar, .grp 2 (.plusL .anyc), qstar, .eos]]
  action := str "select"
  params := [str "option", str "element"]

/-- Click patterns. -/
def clickInfo : ActionInfo where
  patterns :=
    [seqAll [.opt (rlit "i "), rlit "click", .opt (.seq wsp (rlit "on")), wsp,
      .opt (.seq (rlit "the") wsp), qstar, .grp 1 (.plusL .anyc), qstar,
      .opt (.seq wss (altAll [rlit "button", rlit "link", rlit "element"])), .eos],
     seqAll [.opt (rlit "i "), altAll [rlit "press", rlit "tap"], wsp,
      .opt (.seq (rlit "the") wsp), qstar, .grp 1 (.plusL .anyc), qstar,
      .opt (.seq wss (altAll [rlit "button", rlit "link"])), .eos],
     seqAll [.opt (rlit "the "), .opt (rlit "user "), rlit "click", .opt (rlit "s"), wsp,
      .opt (.seq (rlit "on") wsp), .opt (.seq (rlit "the") wsp), qstar,
      .grp 1 (.plusL .anyc), qstar, .eos]]
  action := str "click"
  params := [str "element"]

/-- Input patterns. -/
def inputInfo : ActionInfo where
  patterns :=
    [seqAll [.opt (rlit "i "), altAll [rlit "enter", rlit "type", rlit "input", rlit "fill",
        rlit "write"], wsp, qstar, .grp 1 (.plusL .anyc), qstar, wsp,
      altAll [rlit "in", rlit "into"], wsp, .opt (.seq (rlit "the") wsp), qstar,
      .grp 2 (.plusL .anyc), qstar,
      .opt (.seq wss (altAll [rlit "field", rlit "input", rlit "textbox"])),
      .opt (.seq wss (rlit "[force ai]")), .eos],
     seqAll [.opt (rlit "i "), altAll [rlit "enter", rlit "type", rlit "input", rlit "fill",
        rlit "write"], wsp, qstar, .grp 1 (.plusL .anyc), qstar, wsp,
      altAll [rlit "in", rlit "into"], wsp, .opt (.seq (rlit "the") wsp), qstar,
      .grp 2 (.plusL .anyc), qstar,
      .opt (.seq wss (altAll [rlit "field", rlit "input", rlit "textbox"])), .eos],
     seqAll [.opt (rlit "i "), altAll [rlit "fill", rlit "enter"], wsp,
      .opt (.seq (rlit "the") wsp), qstar, .grp 1 (.plusL .anyc), qstar,
      .opt (.seq wss (altAll [rlit "field", rlit "input"])), wsp, rlit "with", wsp, qstar,
      .grp 2 (.plusL .anyc), qstar, .eos],
     seqAll [.opt (rlit "the "), .opt (rlit "user "), altAll [rlit "enters", rlit "types",
        rlit "inputs"], wsp, qstar, .grp 1 (.plusL .anyc), qstar, wsp,
      altAll [rlit "in", rlit "into"], wsp, .opt (.seq (rlit "the") wsp), qstar,
      .grp 2 (.plusL .anyc), qstar, .eos]]
  action := str "input"
  params := [str "value", str "element"]

/-- Checkbox patterns. -/
def checkboxInfo : ActionInfo where
  patterns :=
    [seqAll [.opt (rlit "i "), altAll [rlit "check", rlit "tick", rlit "mark", rlit "select"],
      wsp, .opt (.seq (rlit "the") wsp), qstar, .grp 1 (.plusL .anyc), qstar, wsp,
      chkboxRe, .eos],
     seqAll [.opt (rlit "i "), altAll [rlit "uncheck", rlit "untick", rlit "unmark",
        rlit "deselect"], wsp, .opt (.seq (rlit "the") wsp), qstar, .grp 1 (.plusL .anyc),
      qstar, wsp, chkboxRe, .eos],
     seqAll [.opt (rlit "i "), altAll [rlit "select", rlit "choose"], wsp, qstar,
      .grp 1 (.plusL .anyc), qstar, wsp, rlit "checkbox", .eos],
     seqAll [.opt (rlit "i "), rlit "deselect", wsp, qstar, .grp 1 (.plusL .anyc), qstar, wsp,
      rlit "checkbox", .eos],
     seqAll [.opt (.seq (rlit "the") wsp), qstar, .grp 1 (.plusL .anyc), qstar, wsp, chkboxRe,
      wsp, .opt (.seq (rlit "should") wsp), .opt (.seq (rlit "be") wsp),
      .grp 2 (altAll [rlit "checked", rlit "unchecked"]), .eos],
     seqAll [.opt (rlit "i "), altAll [rlit "enable", rlit "disable"], wsp,
      .opt (.seq (rlit "the") wsp), qstar, .grp 1 (.plusL .anyc), qstar, wsp, chkboxRe, .eos],
     seqAll [.opt (rlit "i "), altAll [rlit "click", rlit "toggle"], wsp,
      .opt (.seq (rlit "on") wsp), .opt (.seq (rlit "the") wsp), qstar, .grp 1 (.plusL .anyc),
      qstar, wsp, chkboxRe, .eos],
     seqAll [.opt (rlit "i "), altAll [rlit "set", rlit "make"], wsp,
      .opt (.seq (rlit "the") wsp), qstar, .grp 1 (.plusL .anyc), qstar, wsp, chkboxRe, wsp,
      .opt (.seq (rlit "to") wsp), .grp 2 (altAll [rlit "checked", rlit "unchecked"]), .eos]]
  action := str "checkbox"
  params := [str "element", str "state"]

/-- Radio-button patterns. -/
def radioInfo : ActionInfo where
  patterns :=
    [seqAll [.opt (rlit "i "), rlit "select", wsp, qstar, .grp 1 (.plusL .anyc), qstar, wsp,
      radioBtnRe, .eos],
     seqAll [.opt (rlit "i "), altAll [rlit "choose", rlit "pick", rlit "select"], wsp,
      .opt (.seq (rlit "the") wsp), qstar, .grp 1 (.plusL .anyc), qstar, wsp,
      .opt (.seq (rlit "radio") wsp), rlit "option", .eos],
     seqAll [.opt (rlit "i "), altAll [rlit "click", rlit "select"], wsp,
      .opt (.seq (rlit "on") wsp), .opt (.seq (rlit "the") wsp), qstar, .grp 1 (.plusL .anyc),
      qstar, wsp, radioBtnRe, .eos],
     seqAll [.opt (rlit "the "), radioBtnRe, wsp, qstar, .grp 1 (.plusL .anyc), qstar, wsp,
      rlit "is", wsp, rlit "selected", .eos],
     seqAll [.opt (rlit "i "), altAll [rlit "select", rlit "choose"], wsp, radioBtnRe, wsp,
      qstar, .grp 1 (.plusL .anyc), qstar, .eos]]
  action := str "radio"
  params := [str "element"]

/-- Text-verification patterns. -/
def verifyTextInfo : ActionInfo where
  patterns :=
    [seqAll [.opt (rlit "i "), .opt (.seq (rlit "should") wsp), rlit "see", wsp,
      .opt (.seq (rlit "the") wsp),
      .opt (altAll [.seq (rlit "text") wsp, .seq (rlit "message") wsp]), qstar,
      .grp 1 (.plusL .anyc), qstar, .eos],
     seqAll [.opt (rlit "the "), altAll [rlit "page", rlit "screen"], wsp,
      .opt (.seq (rlit "should") wsp), altAll [rlit "contain", rlit "display", rlit "show"],
      .opt (rlit "s"), wsp, .opt (.seq (rlit "the") wsp),
      .opt (altAll [.seq (rlit "text") wsp, .seq (rlit "message") wsp]), qstar,
      .grp 1 (.plusL .anyc), qstar, .eos],
     seqAll [.opt (rlit "i "), altAll [rlit "verify", rlit "check", rlit "validate"], wsp,
      .opt (.seq (rlit "that") wsp), .opt (.seq (rlit "the") wsp),
      .opt (altAll [.seq (rlit "text") wsp, .seq (rlit "message") wsp]), qstar,
      .grp 1 (.plusL .anyc), qstar, wsp, rlit "is", wsp,
      altAll [rlit "displayed", rlit "shown", rlit "visible"], .eos]]
  action := str "verify_text"
  params := [str "text"]

/-- Element-visibility patterns. -/
def verifyElementInfo : ActionInfo where
  patterns :=
    [seqAll [.opt (rlit "i "), .opt (.seq (rlit "should") wsp), rlit "see", wsp,
      .opt (.seq (rlit "the") wsp),
      .opt (altAll [.seq (rlit "element") wsp, .seq (rlit "button") wsp,
        .seq (rlit "link") wsp, .seq (rlit "field") wsp]), qstar, .grp 1 (.plusL .anyc),
      qstar, wsp, rlit "element", .eos],
     seqAll [.opt (rlit "i "), .opt (.seq (rlit "should") wsp), rlit "see", wsp,
      .opt (.seq (rlit "the") wsp), qstar, .grp 1 (.plusL .anyc), qstar, wsp,
      altAll [rlit "element", rlit "button", rlit "link", rlit "field"], .eos],
     seqAll [.opt (rlit "the "),
      .opt (altAll [.seq (rlit "element") wsp, .seq (rlit "button") wsp,
        .seq (rlit "link") wsp, .seq (rlit "field") wsp]), qstar, .grp 1 (.plusL .anyc),
      qstar, wsp, .opt (.seq (rlit "should") wsp), altAll [rlit "be", rlit "is"], wsp,
      altAll [rlit "displayed", rlit "visible", rlit "shown"], .eos],
     seqAll [.opt (rlit "i "), altAll [rlit "verify", rlit "check"], wsp,
      .opt (.seq (rlit "that") wsp), .opt (.seq (rlit "the") wsp), qstar,
      .grp 1 (.plusL .anyc), qstar, wsp, rlit "is", wsp,
      altAll [rlit "displayed", rlit "visible", rlit "present"], .eos]]
  action := str "verify_element"
  params := [str "element"]

/-- Wait patterns (the parameter list is positional in the source: a
pattern's single group maps to the first name, `duration`). -/
def waitInfo : ActionInfo where
  patterns :=
    [seqAll [.opt (rlit "i "), rlit "wait", wsp, .opt (.seq (rlit "for") wsp),
      .grp 1 (.plus .digit), wsp, altAll [rlit "seconds", rlit "second", rlit "secs",
        rlit "sec", rlit "milliseconds", rlit "millisecond", rlit "ms"], .eos],
     seqAll [.opt (rlit "i "), rlit "wait", wsp, altAll [rlit "for", rlit "until"], wsp,
      .opt (.seq (rlit "the") wsp),
      .opt (altAll [.seq (rlit "element") wsp, .seq (rlit "button") wsp,
        .seq (rlit "link") wsp]), qstar, .grp 1 (.plusL .anyc), qstar, wsp,
      altAll [rlit "is", seqAll [rlit "to", wsp, rlit "be"]], wsp,
      altAll [rlit "displayed", rlit "visible", rlit "shown"], .eos],
     seqAll [.opt (rlit "i "), rlit "wait", wsp, rlit "for", wsp, rlit "text", wsp, qstar,
      .grp 1 (.plusL .anyc), qstar, wsp, rlit "to", wsp,
      altAll [rlit "load", rlit "appear", seqAll [rlit "be", wsp, rlit "visible"]], .eos],
     seqAll [.opt (rlit "i "), rlit "pause", wsp, .opt (.seq (rlit "for") wsp),
      .grp 1 (.plus .digit), wsp, altAll [rlit "seconds", rlit "second", rlit "secs",
        rlit "sec"], .eos]]
  action := str "wait"
  params := [str "duration", str "element", str "text"]

/-- Search patterns. -/
def searchInfo : ActionInfo where
  patterns :=
    [seqAll [.opt (rlit "i "), rlit "search", wsp,
      .opt (altAll [.seq (rlit "for") wsp, .seq (rlit "with") wsp]),
      .opt (.seq (rlit "text") wsp), qstar, .grp 1 (.plusL .anyc), qstar, .eos],
     seqAll [.opt (rlit "i "), rlit "search", wsp,
      .opt (altAll [.seq (rlit "for") wsp, .seq (rlit "with") wsp]), qstar,
      .grp 1 (.plusL .anyc), qstar, wsp, rlit "in", wsp, .opt (.seq (rlit "the") wsp), qstar,
      .grp 2 (.plusL .anyc), qstar, .opt (.seq wsp (rlit "field")), .eos],
     seqAll [.opt (rlit "i "), altAll [rlit "enter", rlit "type"], wsp, qstar,
      .grp 1 (.plusL .anyc), qstar, wsp, rlit "in", wsp, .opt (.seq (rlit "the") wsp),
      rlit "search", wsp, altAll [rlit "box", rlit "field", rlit "bar"], .eos],
     seqAll [.opt (rlit "i "), rlit "search", wsp, rlit "in", wsp, .opt (.seq (rlit "the") wsp),
      qstar, .grp 1 (.plusL .anyc), qstar, wsp, .opt (.seq (rlit "field") wsp),
      altAll [rlit "for", rlit "with"], wsp, qstar, .grp 2 (.plusL .anyc), qstar, .eos]]
  action := str "search"
  params := [str "query", str "field"]

/-- Table-verification patterns. -/
def verifyTableInfo : ActionInfo where
  patterns :=
    [seqAll [.opt (rlit "i "), altAll [rlit "verify", rlit "check", rlit "validate"], wsp,
      .opt (.seq (rlit "that") wsp), .opt (.seq (rlit "the") wsp), rlit "table", wsp,
      altAll [rlit "data", rlit "contains", rlit "shows"], .star .anyc, .eos],
     seqAll [.opt (rlit "i "), altAll [rlit "verify", rlit "check", rlit "validate"], wsp,
      .opt (.seq (rlit "the") wsp), qstar, .grp 1 (.plusL .anyc), qstar, wsp, rlit "table",
      wsp, altAll [rlit "data", rlit "contains", rlit "shows"], .star .anyc, .eos],
     seqAll [.opt (.seq (rlit "the") wsp), rlit "table", wsp, .opt (.seq (rlit "should") wsp),
      altAll [rlit "contain", rlit "show", rlit "display"], .opt (rlit "s"), .star .anyc,
      .eos],
     seqAll [.opt (.seq (rlit "the") wsp), qstar, .grp 1 (.plusL .anyc), qstar, wsp,
      rlit "table", wsp, .opt (.seq (rlit "should") wsp),
      altAll [rlit "contain", rlit "show", rlit "display"], .opt (rlit "s"), .star .anyc,
      .eos],
     seqAll [.opt (rlit "i "), .opt (.seq (rlit "should") wsp), rlit "see", wsp,
      .opt (.seq (rlit "the") wsp), rlit "following", wsp, .opt (.seq (rlit "data") wsp),
      rlit "in", wsp, .opt (.seq (rlit "the") wsp), rlit "table", .star .anyc, .eos],
     seqAll [.opt (rlit "i "), rlit "validate", wsp, .opt (.seq (rlit "the") wsp),
      rlit "table", wsp, .opt (.seq (rlit "with") wsp), .opt (.seq (rlit "the") wsp),
      rlit "following", wsp, altAll [rlit "data", rlit "values"], .star .anyc, .eos]]
  action := str "verify_table"
  params := [str "table"]

/-- Screenshot patterns. -/
def screenshotInfo : ActionInfo where
  patterns :=
    [seqAll [.opt (rlit "i "), altAll [rlit "take", rlit "capture"], wsp,
      .opt (.seq (rlit "a") wsp), rlit "screenshot",
      .opt (seqAll [wsp, altAll [rlit "of", rlit "for"], wsp, qstar, .grp 1 (.plusL .anyc),
        qstar]), .eos],
     seqAll [.opt (rlit "i "), rlit "screenshot", wsp, .opt (.seq (rlit "the") wsp),
      altAll [rlit "page", rlit "screen"],
      .opt (seqAll [wsp, rlit "as", wsp, qstar, .grp 1 (.plusL .anyc), qstar]), .eos]]
  action := str "screenshot"
  params := [str "name"]

/-- `(enabled|disabled|active|inactive)` capture. -/
def sectStateRe (g : Nat) : Re :=
  Re.grp g (altAll [rlit "enabled", rlit "disabled", rlit "active", rlit "inactive"])

/-- Section-state verification patterns. -/
def verifySectionStateInfo : ActionInfo where
  patterns :=
    [seqAll [.opt (rlit "i "), altAll [rlit "verify", rlit "check", rlit "validate"], wsp,
      .opt (.seq (rlit "that") wsp), .opt (.seq (rlit "the") wsp), qstar,
      .grp 1 (.plusL .anyc), qstar, wsp, altAll [rlit "section", rlit "step", rlit "tab"],
      wsp, rlit "is", wsp, sectStateRe 2, .eos],
     seqAll [.opt (.seq (rlit "the") wsp), qstar, .grp 1 (.plusL .anyc), qstar, wsp,
      altAll [rlit "section", rlit "step", rlit "tab"], wsp, .opt (.seq (rlit "should") wsp),
      altAll [rlit "be", rlit "is"], wsp, sectStateRe 2, .eos],
     seqAll [.opt (rlit "i "), .opt (.seq (rlit "should") wsp), rlit "see", wsp,
      .opt (.seq (rlit "that") wsp), .opt (.seq (rlit "the") wsp), qstar,
      .grp 1 (.plusL .anyc), qstar, wsp, altAll [rlit "section", rlit "step", rlit "tab"],
      wsp, rlit "is", wsp, sectStateRe 2, .eos]]
  action := str "verify_section_state"
  params := [str "section", str "state"]

/-- Plural section-state verification patterns. -/
def verifySectionsStateInfo : ActionInfo where
  patterns :=
    [seqAll [.opt (rlit "i "), altAll [rlit "verify", rlit "check", rlit "validate"], wsp,
      .opt (.seq (rlit "the") wsp), .opt (.seq (rlit "following") wsp), rlit "section",
      .opt (rlit "s"), wsp, .opt (altAll [seqAll [rlit "state", .opt (rlit "s")],
        rlit "status"]), .opt (rlit ":"), .eos],
     seqAll [.opt (.seq (rlit "the") wsp), .opt (.seq (rlit "following") wsp), rlit "section",
      .opt (rlit "s"), wsp, .opt (.seq (rlit "should") wsp), altAll [rlit "have", rlit "be"],
      wsp, .opt (.seq (rlit "the") wsp), .opt (.seq (rlit "following") wsp),
      .opt (altAll [seqAll [rlit "state", .opt (rlit "s")], rlit "status"]), .opt (rlit ":"),
      .eos],
     seqAll [.opt (rlit "i "), .opt (.seq (rlit "should") wsp), rlit "see", wsp,
      .opt (.seq (rlit "the") wsp), .opt (.seq (rlit "following") wsp), rlit "section",
      .opt (rlit "s"), wsp, .opt (.seq (rlit "with") wsp),
      .opt (altAll [seqAll [rlit "state", .opt (rlit "s")], rlit "status"]), .opt (rlit ":"),
      .eos]]
  action := str "verify_sections_state"
  params := []

/-- Date-picker patterns. -/
def selectDateInfo : ActionInfo where
  patterns :=
    [seqAll [.opt (rlit "i "), altAll [rlit "select", rlit "choose", rlit "pick",
        rlit "enter"], wsp, rlit "date", wsp, qstar, .grp 1 (.plusL .anyc), qstar, wsp,
      altAll [rlit "in", rlit "for"], wsp, .opt (.seq (rlit "the") wsp), qstar,
      .grp 2 (.plusL .anyc), qstar, .opt (.seq wsp (rlit "field")), .eos],
     seqAll [.opt (rlit "i "), altAll [rlit "select", rlit "set"], wsp, qstar,
      .grp 1 (.plusL .anyc), qstar, wsp, .opt (.seq (rlit "as") wsp),
      .opt (.seq (rlit "the") wsp), rlit "date", wsp, altAll [rlit "in", rlit "for"], wsp,
      qstar, .grp 2 (.plusL .anyc), qstar, .eos],
     seqAll [.opt (rlit "i "), altAll [rlit "enter", rlit "input", rlit "fill"], wsp, qstar,
      .grp 1 (.plusL .anyc), qstar, wsp, rlit "in", wsp, .opt (.seq (rlit "the") wsp), qstar,
      .grp 2 (.plusL .anyc), qstar, wsp, rlit "date", wss,
      .opt (altAll [rlit "picker", rlit "field"]), .eos],
     seqAll [.opt (.seq (rlit "the") wsp), qstar, .grp 1 (.plusL .anyc), qstar, wsp,
      rlit "date", wsp, .opt (.seq (rlit "should") wsp), rlit "be", wsp, qstar,
      .grp 2 (.plusL .anyc), qstar, .eos]]
  action := str "select_date"
  params := [str "date", str "element"]

/-- `\$\{` and `\}` literals. -/
def dollarBrace : Str := ['$', Char.ofNat 123]

/-- Closing brace literal. -/
def braceClose : Str := [Char.ofNat 125]

/-- Date-range-picker patterns. -/
def selectDateRangeInfo : ActionInfo where
  patterns :=
    [seqAll [.opt (rlit "i "), altAll [rlit "select", rlit "choose", rlit "pick"], wsp,
      rlit "date", wsp, rlit "range", wsp, qstar, .grp 1 (.plusL .anyc), qstar, wsp,
      rlit "to", wsp, qstar, .grp 2 (.plusL .anyc), qstar, wsp, altAll [rlit "in", rlit "for"],
      wsp, .opt (.seq (rlit "the") wsp), qstar, .grp 3 (.plusL .anyc), qstar,
      .opt (.seq wsp (rlit "field")), .eos],
     seqAll [.opt (rlit "i "), altAll [rlit "select", rlit "set"], wsp, qstar,
      .grp 1 (.plusL .anyc), qstar, wsp, rlit "to", wsp, qstar, .grp 2 (.plusL .anyc), qstar,
      wsp, .opt (.seq (rlit "as") wsp), .opt (.seq (rlit "the") wsp), rlit "date", wsp,
      rlit "range", wsp, altAll [rlit "in", rlit "for"], wsp, qstar, .grp 3 (.plusL .anyc),
      qstar, .eos],
     seqAll [.opt (rlit "i "), altAll [rlit "enter", rlit "input"], wsp, rlit "date", wsp,
      rlit "range", wsp, qstar, .grp 1 (.plusL .anyc), qstar, wsp,
      altAll [rlit "to", rlit "-"], wsp, qstar, .grp 2 (.plusL .anyc), qstar, wsp,
      altAll [rlit "in", rlit "for"], wsp, qstar, .grp 3 (.plusL .anyc), qstar, .eos],
     seqAll [.opt (rlit "i "), altAll [rlit "select", rlit "choose", rlit "pick"], wsp,
      rlit "date", wsp, rlit "range", wsp, .lit dollarBrace, .grp 1 (.plusL .anyc),
      .lit braceClose, wsp, rlit "to", wsp, .lit dollarBrace, .grp 2 (.plusL .anyc),
      .lit braceClose, wsp, altAll [rlit "in", rlit "for"], wsp, .opt (.seq (rlit "the") wsp),
      qstar, .grp 3 (.plusL .anyc), qstar, .opt (.seq wsp (rlit "field")), .eos]]
  action := str "select_date_range"
  params := [str "start_date", str "end_date", str "element"]

/-- Date-generation patterns. -/
def generateDateInfo : ActionInfo where
  patterns :=
    [seqAll [.opt (rlit "i "), rlit "generate", wsp, .opt (.seq (rlit "a") wsp), rlit "date",
      wsp, qstar, .grp 1 (.plusL .anyc), qstar, wsp, .opt (.seq (rlit "and") wsp),
      rlit "store", wsp, .opt (.seq (rlit "it") wsp), rlit "as", wsp, qstar,
      .grp 2 (.plusL .anyc), qstar, .eos],
     seqAll [.opt (rlit "i "), altAll [rlit "get", rlit "create"], wsp,
      .opt (.seq (rlit "a") wsp), qstar, .grp 1 (.plusL .anyc), qstar, wsp, rlit "date", wsp,
      .opt (.seq (rlit "and") wsp), rlit "store", wsp, .opt (.seq (rlit "it") wsp), rlit "as",
      wsp, qstar, .grp 2 (.plusL .anyc), qstar, .eos],
     seqAll [.opt (rlit "i "), rlit "store", wsp, qstar, .grp 1 (.plusL .anyc), qstar, wsp,
      rlit "as", wsp, qstar, .grp 2 (.plusL .anyc), qstar, .eos],
     seqAll [.opt (rlit "i "), rlit "generate", wsp, .opt (.seq (rlit "a") wsp),
      rlit "datetime", wsp, qstar, .grp 1 (.plusL .anyc), qstar, wsp,
      .opt (.seq (rlit "and") wsp), rlit "store", wsp, .opt (.seq (rlit "it") wsp), rlit "as",
      wsp, qstar, .grp 2 (.plusL .anyc), qstar, .eos],
     seqAll [.opt (rlit "i "), altAll [rlit "get", rlit "create"], wsp,
      .opt (.seq (rlit "a") wsp), qstar, .grp 1 (.plusL .anyc), qstar, wsp, rlit "datetime",
      wsp, .opt (.seq (rlit "and") wsp), rlit "store", wsp, .opt (.seq (rlit "it") wsp),
      rlit "as", wsp, qstar, .grp 2 (.plusL .anyc), qstar, .eos]]
  action := str "generate_date"
  params := [str "date_spec", str "variable_name"]

/-- DateTime-picker patterns. -/
def selectDatetimeInfo : ActionInfo where
  patterns :=
    [seqAll [.opt (rlit "i "), altAll [rlit "select", rlit "choose", rlit "pick",
        rlit "enter"], wsp, rlit "datetime", wsp, qstar, .grp 1 (.plusL .anyc), qstar, wsp,
      altAll [rlit "in", rlit "for"], wsp, .opt (.seq (rlit "the") wsp), qstar,
      .grp 2 (.plusL .anyc), qstar, .opt (.seq wsp (rlit "field")), .eos],
     seqAll [.opt (rlit "i "), altAll [rlit "select", rlit "set"], wsp, qstar,
      .grp 1 (.plusL .anyc), qstar, wsp, .opt (.seq (rlit "as") wsp),
      .opt (.seq (rlit "the") wsp), rlit "datetime", wsp, altAll [rlit "in", rlit "for"], wsp,
      qstar, .grp 2 (.plusL .anyc), qstar, .eos],
     seqAll [.opt (rlit "i "), altAll [rlit "enter", rlit "input", rlit "fill"], wsp, qstar,
      .grp 1 (.plusL .anyc), qstar, wsp, rlit "in", wsp, .opt (.seq (rlit "the") wsp), qstar,
      .grp 2 (.plusL .anyc), qstar, wsp, rlit "datetime", wss,
      .opt (altAll [rlit "picker", rlit "field"]), .eos],
     seqAll [.opt (rlit "i "), altAll [rlit "select", rlit "choose", rlit "pick",
        rlit "enter"], wsp, rlit "date", wsp, qstar, .grp 1 (.plusL .anyc), qstar, wsp,
      altAll [rlit "in", rlit "for"], wsp, .opt (.seq (rlit "the") wsp), qstar,
      .grp 2 (.plusL .anyc), qstar, .opt (.seq wsp (rlit "field")), .eos],
     seqAll [.opt (rlit "i "), altAll [rlit "enter", rlit "input", rlit "fill"], wsp, qstar,
      .grp 1 (.plusL .anyc), qstar, wsp, rlit "in", wsp, .opt (.seq (rlit "the") wsp), qstar,
      .grp 2 (.plusL .anyc), qstar, wsp, rlit "date", wss,
      .opt (altAll [rlit "picker", rlit "field"]), .eos]]
  action := str "select_datetime"
  params := [str "datetime", str "element"]

/-- `(?:api|API)` (redundant under IGNORECASE, transliterated anyway). -/
def apiRe : Re := altAll [rlit "api", rlit "API"]

/-- A lazily captured quoted name: `["\'](.*?)["\']`. -/
def quotedG (g : Nat) : Re := seqAll [qcls, .grp g (.starL .anyc), qcls]

/-- `(\d+(?:\.\d+)?)` numeric capture. -/
def numG (g : Nat) : Re :=
  Re.grp g (.seq (.plus .digit) (.opt (.seq (rlit ".") (.plus .digit))))

/-- API-call patterns. -/
def callApiInfo : ActionInfo where
  patterns :=
    [seqAll [.opt (rlit "i "), rlit "call ", .opt (rlit "the "), quotedG 1, rlit " ",
      altAll [rlit "api", rlit "API", rlit "endpoint"], .eos],
     seqAll [.opt (rlit "i "), altAll [rlit "make", rlit "send", rlit "execute"], rlit " ",
      .opt (rlit "a "), apiRe, rlit " ", altAll [rlit "call", rlit "request"], rlit " ",
      .opt (rlit "to "), quotedG 1, .eos]]
  action := str "call_api"
  params := [str "api_name"]

/-- API-call-with-data patterns. -/
def callApiWithDataInfo : ActionInfo where
  patterns :=
    [seqAll [.opt (rlit "i "), rlit "call ", .opt (rlit "the "), quotedG 1, rlit " ", apiRe,
      rlit " with", .opt (rlit ":"), .eos],
     seqAll [.opt (rlit "i "), altAll [rlit "make", rlit "send"], rlit " ", .opt (rlit "a "),
      apiRe, rlit " ", altAll [rlit "call", rlit "request"], rlit " ", .opt (rlit "to "),
      quotedG 1, rlit " with", .opt (rlit ":"), .eos]]
  action := str "call_api_with_data"
  params := [str "api_name"]

/-- API-authentication patterns. -/
def authenticateInfo : ActionInfo where
  patterns :=
    [seqAll [.opt (rlit "i "), rlit "authenticate with ", .opt (rlit "username "), quotedG 1,
      rlit " and ", .opt (rlit "password "), quotedG 2, .eos],
     seqAll [.opt (rlit "i "), rlit "login with ", .opt (rlit "username "), quotedG 1,
      rlit " and ", .opt (rlit "password "), quotedG 2, .eos]]
  action := str "authenticate"
  params := [str "username", str "password"]

/-- Environment-credential authentication patterns. -/
def authenticateWithEnvInfo : ActionInfo where
  patterns :=
    [seqAll [.opt (rlit "i "), rlit "authenticate using ", .opt (rlit "the "), quotedG 1,
      rlit " credentials", .eos],
     seqAll [.opt (rlit "i "), rlit "login using ", .opt (rlit "the "), quotedG 1,
      rlit " credentials", .eos]]
  action := str "authenticate_with_env"
  params := [str "credential_key"]

/-- API status-validation patterns. -/
def verifyApiStatusInfo : ActionInfo where
  patterns :=
    [seqAll [.opt (rlit "the "), apiRe, rlit " response status ",
      altAll [rlit "should be", rlit "is"], rlit " ", .grp 1 (.plus .digit), .eos],
     seqAll [.opt (rlit "the "), apiRe, rlit " ", .opt (rlit "should "),
      altAll [rlit "return", rlit "respond with"], rlit " ", .opt (rlit "status "),
      .grp 1 (.plus .digit), .eos]]
  action := str "verify_api_status"
  params := [str "status_code"]

/-- API body-containment patterns. -/
def verifyApiContainsInfo : ActionInfo where
  patterns :=
    [seqAll [.opt (rlit "the "), apiRe, rlit " response ", .opt (rlit "should "),
      rlit "contain", .opt (rlit "s"), rlit " ", quotedG 1, .eos],
     seqAll [.opt (rlit "the "), rlit "response ", .opt (rlit "should "),
      altAll [rlit "contain", rlit "include"], .opt (rlit "s"), rlit " ", quotedG 1, .eos]]
  action := str "verify_api_contains"
  params := [str "text"]

/-- API field-equality patterns. -/
def verifyApiFieldInfo : ActionInfo where
  patterns :=
    [seqAll [.opt (rlit "the "), apiRe, rlit " response field ", quotedG 1, rlit " ",
      altAll [rlit "should be", rlit "equals"], rlit " ", quotedG 2, .eos],
     seqAll [.opt (rlit "the "), rlit "field ", quotedG 1, rlit " ",
      altAll [rlit "should be", rlit "equals"], rlit " ", quotedG 2, .eos]]
  action := str "verify_api_field"
  params := [str "field_path", str "expected_value"]

/-- API response-table patterns. -/
def verifyApiResponseTableInfo : ActionInfo where
  patterns :=
    [seqAll [.opt (rlit "i "), rlit "verify ", .opt (rlit "the "), apiRe,
      rlit " response matches", .opt (rlit ":"), .eos],
     seqAll [.opt (rlit "the "), apiRe, rlit " response ", .opt (rlit "should "),
      rlit "match", .opt (rlit "es"), .opt (rlit ":"), .eos]]
  action := str "verify_api_response_table"
  params := []

/-- API response-time patterns. -/
def verifyApiResponseTimeInfo : ActionInfo where
  patterns :=
    [seqAll [.opt (rlit "the "), apiRe, rlit " response time should be less than ", numG 1,
      rlit " second", .opt (rlit "s"), .eos],
     seqAll [.opt (rlit "the "), rlit "response ", .opt (rlit "should "),
      altAll [rlit "take", rlit "complete"], rlit " ",
      altAll [rlit "less than", rlit "under"], rlit " ", numG 1, rlit " second",
      .opt (rlit "s"), .eos]]
  action := str "verify_api_response_time"
  params := [str "max_time"]

/-- API field-storage patterns. -/
def storeApiFieldInfo : ActionInfo where
  patterns :=
    [seqAll [.opt (rlit "i "), rlit "store ", .opt (rlit "the "), apiRe,
      rlit " response field ", quotedG 1, rlit " as ", quotedG 2, .eos],
     seqAll [.opt (rlit "i "), rlit "save ", .opt (rlit "the "), rlit "field ", quotedG 1,
      rlit " as ", quotedG 2, .eos]]
  action := str "store_api_field"
  params := [str "field_path", str "variable_name"]

/-- API response-storage patterns. -/
def storeApiResponseInfo : ActionInfo where
  patterns :=
    [seqAll [.opt (rlit "i "), rlit "store ", .opt (rlit "the "), apiRe, rlit " response as ",
      quotedG 1, .eos],
     seqAll [.opt (rlit "i "), rlit "save ", .opt (rlit "the "), rlit "response as ",
      quotedG 1, .eos]]
  action := str "store_api_response"
  params := [str "variable_name"]

/-- Stored-value reuse pattern. -/
def useStoredValueInfo : ActionInfo where
  patterns :=
    [seqAll [.opt (rlit "i "), rlit "use ", .opt (rlit "the "), rlit "stored ", quotedG 1,
      rlit " ", .opt (rlit "value "), altAll [rlit "as", rlit "for"], rlit " ", quotedG 2,
      .eos]]
  action := str "use_stored_value"
  params := [str "stored_name", str "param_name"]

/-- API-wait pattern. -/
def waitApiInfo : ActionInfo where
  patterns :=
    [seqAll [.opt (rlit "i "), rlit "wait ", numG 1, rlit " second", .opt (rlit "s"),
      .opt (seqAll [rlit " ", altAll [rlit "before", rlit "after"], rlit " ",
        .opt (rlit "the "), apiRe, rlit " call"]), .eos]]
  action := str "wait_api"
  params := [str "duration"]

/-- File-upload patterns. -/
def uploadFileInfo : ActionInfo where
  patterns :=
    [seqAll [.opt (rlit "i "), rlit "upload file ", quotedG 1, rlit " to ", quotedG 2,
      rlit " ", apiRe, .eos],
     seqAll [.opt (rlit "i "), rlit "upload ", quotedG 1, rlit " to ", quotedG 2, rlit " ",
      apiRe, .eos]]
  action := str "upload_file"
  params := [str "file_path", str "api_name"]

/-- Role-based API-authentication patterns. -/
def authenticateWithRoleInfo : ActionInfo where
  patterns :=
    [seqAll [.opt (rlit "i "), rlit "authenticate as ", .opt (rlit "a "), quotedG 1,
      .opt (.seq wsp (rlit "role")), .eos],
     seqAll [.opt (rlit "i "), rlit "login as ", .opt (rlit "a "), quotedG 1,
      .opt (.seq wsp (rlit "role")), .eos],
     seqAll [.opt (rlit "i "), altAll [rlit "am", rlit "are"], rlit " authenticated as ",
      .opt (rlit "a "), quotedG 1, .eos]]
  action := str "authenticate_with_role"
  params := [str "role"]

/-- UI login-as-role patterns. -/
def loginAsRoleInfo : ActionInfo where
  patterns :=
    [seqAll [.opt (rlit "i "), altAll [rlit "am logged in", rlit "log in", rlit "login"],
      rlit " as ", .opt (rlit "a "), quotedG 1,
      .opt (.seq wsp (altAll [rlit "user", rlit "role"])), .eos],
     seqAll [.opt (rlit "i "), rlit "sign in as ", .opt (rlit "a "), quotedG 1,
      .opt (.seq wsp (altAll [rlit "user", rlit "role"])), .eos]]
  action := str "login_as_role"
  params := [str "role"]

/-- The full action-pattern table, keyed as in the source dict. -/
def actionPatterns : Dict ActionInfo :=
  [(str "navigate", navigateInfo), (str "select", selectInfo), (str "click", clickInfo),
   (str "input", inputInfo), (str "checkbox", checkboxInfo), (str "radio", radioInfo),
   (str "verify_text", verifyTextInfo), (str "verify_element", verifyElementInfo),
   (str "wait", waitInfo), (str "search", searchInfo), (str "verify_table", verifyTableInfo),
   (str "screenshot", screenshotInfo),
   (str "verify_section_state", verifySectionStateInfo),
   (str "verify_sections_state", verifySectionsStateInfo),
   (str "select_date", selectDateInfo), (str "select_date_range", selectDateRangeInfo),
   (str "generate_date", generateDateInfo), (str "select_datetime", selectDatetimeInfo),
   (str "call_api", callApiInfo), (str "call_api_with_data", callApiWithDataInfo),
   (str "authenticate", authenticateInfo),
   (str "authenticate_with_env", authenticateWithEnvInfo),
   (str "verify_api_status", verifyApiStatusInfo),
   (str "verify_api_contains", verifyApiContainsInfo),
   (str "verify_api_field", verifyApiFieldInfo),
   (str "verify_api_response_table", verifyApiResponseTableInfo),
   (str "verify_api_response_time", verifyApiResponseTimeInfo),
   (str "store_api_field", storeApiFieldInfo),
   (str "store_api_response", storeApiResponseInfo),
   (str "use_stored_value", useStoredValueInfo), (str "wait_api", waitApiInfo),
   (str "upload_file", uploadFileInfo),
   (str "authenticate_with_role", authenticateWithRoleInfo),
   (str "login_as_role", loginAsRoleInfo)]

/-- The fixed priority order `_parse_step_text` walks the buckets in. -/
def patternOrder : List Str :=
  [str "navigate", str "select_date_range", str "checkbox", str "select", str "radio",
   str "click", str "input", str "generate_date", str "select_datetime", str "select_date",
   str "verify_text", str "verify_element", str "verify_section_state",
   str "verify_sections_state", str "wait", str "search", str "verify_table",
   str "screenshot", str "call_api_with_data", str "call_api", str "authenticate",
   str "authenticate_with_env", str "authenticate_with_role", str "login_as_role",
   str "verify_api_status", str "verify_api_contains", str "verify_api_field",
   str "verify_api_response_table", str "verify_api_response_time", str "store_api_field",
   str "store_api_response", str "use_stored_value", str "wait_api", str "upload_file"]

/-- A step-parameter value: a captured string or the boolean `force_ai`
flag. -/
inductive PVal where
  | s (v : Str)
  | b (v : Bool)
deriving DecidableEq

/-- The regex of `_fallback_parse`'s quoted-string scan:
`["\']([^"\']+)["\']`. -/
def quotedScanRe : Re := seqAll [qcls, .grp 1 (.plus (.cls quoteChars true)), qcls]

/-- Python `str.rfind(sub)` restricted to found cases: the last index at
which `sub` starts. -/
def rfindSub (sub s : Str) : Option Nat :=
  ((List.range (s.length + 1)).filter fun i => startsWith (s.drop i) sub).getLast?

/-- `FeatureParser._fallback_parse`: keyword plus quoted-string
heuristics applied when no pattern matched. -/
def fallbackParse (stepText : Str) : Str × Dict PVal :=
  let quotedStrings := reFindAllG1 quotedScanRe (stepText.length + 1) stepText
  let stepLower := pyLower stepText
  let q0 : Str := quotedStrings.getD 0 []
  if ([str "select", str "choose", str "pick"].any fun w => isSubstr w stepLower) &&
      isSubstr (str " in ") stepLower then
    if quotedStrings.length ≥ 1 then
      let inPos := (rfindSub (str " in ") stepLower).getD 0
      let elementPart := pyStrip (stepText.drop (inPos + 4))
      (str "select", [(str "option", .s q0), (str "element", .s elementPart)])
    else
      (str "select", [(str "option", .s []), (str "element", .s stepText)])
  else if ([str "select", str "choose", str "pick"].any fun w => isSubstr w stepLower) &&
      isSubstr (str " from ") stepLower then
    if quotedStrings.length ≥ 2 then
      (str "select", [(str "option", .s q0), (str "element", .s (quotedStrings.getD 1 []))])
    else
      (str "select", [(str "option", .s q0), (str "element", .s stepText)])
  else if [str "click", str "press", str "tap"].any fun w => isSubstr w stepLower then
    (str "click", [(str "element", .s (if quotedStrings.isEmpty then stepText else q0))])
  else if [str "enter", str "type", str "input", str "fill"].any fun w =>
      isSubstr w stepLower then
    if quotedStrings.length ≥ 2 then
      (str "input", [(str "value", .s q0), (str "element", .s (quotedStrings.getD 1 []))])
    else
      (str "input", [(str "value", .s q0), (str "element", .s stepText)])
  else if isSubstr (str "search") stepLower then
    (str "search", [(str "query", .s (if quotedStrings.isEmpty then stepText else q0))])
  else if [str "see", str "verify", str "check", str "should"].any fun w =>
      isSubstr w stepLower then
    (str "verify_text", [(str "text", .s (if quotedStrings.isEmpty then stepText else q0))])
  else if [str "navigate", str "go", str "open", str "visit"].any fun w =>
      isSubstr w stepLower then
    (str "navigate", [(str "url", .s (if quotedStrings.isEmpty then stepText else q0))])
  else if isSubstr (str "wait") stepLower then
    (str "wait", [(str "text", .s (if quotedStrings.isEmpty then stepText else q0))])
  else if [str "table", str "verify table", str "validate table"].any fun w =>
      isSubstr w stepLower then
    if quotedStrings.isEmpty then (str "verify_table", [])
    else (str "verify_table", [(str "table", .s q0)])
  else
    (str "unknown", [(str "text", .s stepText)])

/-- Positional mapping of a match's groups onto the declared parameter
names (`for i, param_name in enumerate(...): if i < len(groups) and
groups[i]: params[param_name] = groups[i].strip('"\x27')`). -/
def buildParamsInto (start : Dict PVal) (names : List Str) (groups : List (Option Str)) :
    Dict PVal :=
  names.enum.foldl
    (fun ps iname =>
      match groups.getD iname.1 none with
      | some g => if g.isEmpty then ps else dset ps iname.2 (.s (stripChars quoteChars g))
      | none => ps)
    start

/-- The verbs whose presence defaults an uncaptured checkbox state to
"unchecked". -/
def uncheckWords : List Str :=
  [str "uncheck", str "untick", str "unmark", str "deselect", str "disable"]

/-- Try one bucket's pattern list in order against the step text. -/
def tryPatternList (key : Str) (info : ActionInfo) (text : Str) (forceAI : Bool) :
    List Re → Option (Str × Dict PVal)
  | [] => none
  | pat :: rest =>
      match reMatch pat text with
      | some caps =>
          let groups := reGroups pat caps
          let params := buildParamsInto [] info.params groups
          let params := if forceAI then dset params (str "force_ai") (.b true) else params
          let params := buildParamsInto params info.params groups
          let params :=
            if key = str "checkbox" && !dmem params (str "state") then
              if uncheckWords.any (fun w => isSubstr w (pyLower text)) then
                dset params (str "state") (.s (str "unchecked"))
              else
                dset params (str "state") (.s (str "checked"))
            else params
          some (info.action, params)
      | none => tryPatternList key info text forceAI rest

/-- Walk the buckets in priority order; first matching pattern wins. -/
def tryBuckets (text : Str) (forceAI : Bool) : List Str → Option (Str × Dict PVal)
  | [] => none
  | key :: rest =>
      match dget actionPatterns key with
      | none => tryBuckets text forceAI rest
      | some info =>
          match tryPatternList key info text forceAI info.patterns with
          | some r => some r
          | none => tryBuckets text forceAI rest

/-- `FeatureParser._parse_step_text`: strip the `[force ai]` marker, try
every bucket's patterns in the fixed priority order, and fall back to the
keyword heuristics. -/
def parseStepText (stepText0 : Str) : Str × Dict PVal :=
  let originalStepText := pyStrip stepText0
  let forceAI := isSubstr (str "[force ai]") (pyLower originalStepText)
  let stepText :=
    if forceAI then
      pyStrip (pyReplace (str "[Force AI]") []
        (pyReplace (str "[FORCE AI]") []
          (pyReplace (str "[force ai]") [] originalStepText)))
    else originalStepText
  match tryBuckets stepText forceAI patternOrder with
  | some r => r
  | none => fallbackParse stepText

/-- C4: the step text `I select "Option A" from the "Country" dropdown`
classifies as action `select` with parameters
`{option: "Option A", element: "Country"}` — and in particular never as
`click` or `input`: the select bucket is tried before the click and input
buckets and its first pattern matches, so the first-match-wins walk stops
there. -/
theorem step_classification_select_priority :
    parseStepText (str "I select \"Option A\" from the \"Country\" dropdown") =
      (str "select", [(str "option", .s (str "Option A")),
                      (str "element", .s (str "Country"))]) ∧
    (parseStepText (str "I select \"Option A\" from the \"Country\" dropdown")).1 ≠
      str "click" ∧
    (parseStepText (str "I select \"Option A\" from the \"Country\" dropdown")).1 ≠
      str "input" := by
  have h : parseStepText (str "I select \"Option A\" from the \"Country\" dropdown") =
      (str "select", [(str "option", .s (str "Option A")),
                      (str "element", .s (str "Country"))]) := rfl
  exact ⟨h, by rw [h]; decide, by rw [h]; decide⟩

/-! ## Feature Parser: file state machine
(`FeatureParser._parse_feature_file` / `parse_features`)

The parser is a line-oriented loop mutating `feature`, `current_scenario`,
`current_step`, `background`, `in_examples`, `examples_data` and `tags`.
Python mutates shared objects through references: `current_scenario` may
alias the background object, and `current_step` aliases the most recently
parsed step, which lives in the current scenario, the background, or an
already-appended scenario.  The embedding tracks that aliasing with an
explicit location (`StepLoc`) and a flag for `current_scenario is
background`; `!=` on dataclasses is structural inequality, as in Python.
File I/O is the boundary: a file is its path plus its list of lines, and
the `except` clause that turns any parse exception into "no feature" is
`none`. -/

/-- A parsed step (`Step` dataclass): keyword (lowercased), raw text,
classified action, parameter map, source line, optional data table. -/
structure PStep where
  ptype : Str
  text : Str
  action : Str
  parameters : Dict PVal
  lineNumber : Nat
  dataTable : Option (List (List Str))
deriving DecidableEq

/-- `_process_examples` output: `{}` for fewer than two rows, else
`{headers, rows}` with one dict per well-sized row. -/
inductive ExamplesTbl where
  | emptyTbl
  | table (headers : List Str) (rows : List (List (Str × Str)))
deriving DecidableEq

/-- A parsed scenario (`Scenario` dataclass). -/
structure PScenario where
  name : Str
  description : Str
  steps : List PStep
  tags : List Str
  examples : Option ExamplesTbl
  lineNumber : Nat
deriving DecidableEq

/-- A parsed feature (`Feature` dataclass). -/
structure PFeature where
  name : Str
  description : Str
  scenarios : List PScenario
  tags : List Str
  background : Option PScenario
  filePath : Str
deriving DecidableEq

/-- Where the Python `current_step` reference points: the last step of
the current scenario (which may be the background), the last step of the
saved background, the last step of the scenario at an index of the
feature's scenario list, or a step no longer reachable from the output. -/
inductive StepLoc where
  | inCurrent
  | inBackground
  | inAppended (i : Nat)
  | orphan
deriving DecidableEq

/-- The parser loop's mutable state. -/
structure ParserState where
  feature : Option PFeature
  current : Option PScenario
  curIsBg : Bool
  bgDone : Option PScenario
  curStep : Option StepLoc
  inExamples : Bool
  examplesData : List (List Str)
  tags : List Str

/-- `_process_examples`. -/
def processExamples (examplesData : List (List Str)) : ExamplesTbl :=
  if examplesData.length < 2 then .emptyTbl
  else
    let headers := examplesData.headD []
    let rows := (examplesData.tail).filterMap fun row =>
      if row.length = headers.length then
        some ((headers.zip row).foldl (fun d kv => dset d kv.1 kv.2) [])
      else none
    .table headers rows

/-- `| a | b |` row extraction: `[cell.strip() for cell in
line.split('|')[1:-1]]`. -/
def tableRowCells (line : Str) : List Str :=
  (((pySplitChar '|' line).drop 1).dropLast).map pyStrip

/-- Append a data-table row to the last step of a step list (the
`current_step.data_table` mutation). -/
def appendRowToLastStep : List PStep → List Str → List PStep
  | [], _ => []
  | [s], row => [{ s with dataTable := some (s.dataTable.getD [] ++ [row]) }]
  | s :: rest, row => s :: appendRowToLastStep rest row

/-- In-place update of one list element (a mutation through a reference
into the list). -/
def modifyAt : List α → Nat → (α → α) → List α
  | [], _, _ => []
  | x :: xs, 0, g => g x :: xs
  | x :: xs, i + 1, g => x :: modifyAt xs i g

/-- The step-keyword prefixes (case-sensitive, as in the source). -/
def stepPrefixes : List Str :=
  [str "Given ", str "When ", str "Then ", str "And ", str "But "]

/-- Closing the previous scenario at a `Scenario:`/`Scenario Outline:`
line: append the open scenario to the feature unless it is (structurally
equal to) the background; `none` is the `AttributeError` raised when the
append happens with no `Feature:` seen yet.  Returns the updated
feature, the saved background object, and where `current_step` now
points. -/
def closeForNewScenario (st : ParserState) :
    Option (Option PFeature × Option PScenario × Option StepLoc) :=
  if (match st.current, (if st.curIsBg then st.current else st.bgDone) with
      | some c, some b => !(decide (c = b))
      | some _, none => true
      | none, _ => false) then
    match st.feature, st.current with
    | some f, some c =>
        some (some { f with scenarios := f.scenarios ++ [c] }, st.bgDone,
          match st.curStep with
          | some .inCurrent => some (.inAppended f.scenarios.length)
          | x => x)
    | _, _ => none
  else
    if st.curIsBg && st.current.isSome then
      some (st.feature, st.current,
        match st.curStep with
        | some .inCurrent => some .inBackground
        | x => x)
    else if st.current.isSome then
      some (st.feature, st.bgDone,
        match st.curStep with
        | some .inCurrent => some .orphan
        | x => x)
    else some (st.feature, st.bgDone, st.curStep)

/-- The branch of the parser loop body a stripped line falls into,
testing the source's conditions in their exact order. -/
inductive LineKind where
  | blank
  | tagLine
  | featureLine
  | backgroundLine
  | scenarioLine
  | examplesLine
  | exampleRow
  | stepLine
  | tableRow
  | other

/-- Which branch of the loop body handles this stripped line, given the
current `in_examples`/`current_step` state. -/
def lineKind (st : ParserState) (line : Str) : LineKind :=
  if line.isEmpty || startsWith line (str "#") then .blank
  else if startsWith line (str "@") then .tagLine
  else if startsWith line (str "Feature:") then .featureLine
  else if startsWith line (str "Background:") then .backgroundLine
  else if startsWith line (str "Scenario:") || startsWith line (str "Scenario Outline:") then
    .scenarioLine
  else if startsWith line (str "Examples:") then .examplesLine
  else if st.inExamples && startsWith line (str "|") then .exampleRow
  else if stepPrefixes.any (fun p => startsWith line p) then .stepLine
  else if startsWith line (str "|") && st.curStep.isSome && !st.inExamples then .tableRow
  else .other

/-- One iteration of the parse loop after the leading `line =
line.strip()`: dispatch one stripped line.  Returns `none` where the
Python body would raise (an append with no `Feature:` seen yet), which
the enclosing `except` turns into a skipped file. -/
def parseLineCore (fp : Str) (st : ParserState) (lineNum : Nat) (line : Str) :
    Option ParserState :=
  match lineKind st line with
  | .blank => some st
  | .tagLine =>
    some { st with tags := (pySplitWs line).filter fun t => startsWith t (str "@") }
  | .featureLine =>
    some { st with feature := some ⟨pyStrip (line.drop 8), [], [], st.tags, none, fp⟩ }
  | .backgroundLine =>
    some { st with
      current := some ⟨str "Background", [], [], [], none, 0⟩
      curIsBg := true
      bgDone := none
      curStep :=
        match st.curStep with
        | some .inCurrent => some .orphan
        | some .inBackground => some .orphan
        | x => x }
  | .scenarioLine =>
    match closeForNewScenario st with
    | none => none
    | some (feature', bgDone', curStep') =>
        let scenarioName := pyStrip ((pySplitCharOnce ':' line).getD 1 [])
        let scenarioTags := st.tags
        let scenarioTags :=
          match feature' with
          | some f =>
              if f.tags ≠ [] then
                f.tags.foldl (fun acc ftag => if acc.contains ftag then acc else acc ++ [ftag])
                  scenarioTags
              else scenarioTags
          | none => scenarioTags
        some { st with
          feature := feature'
          current := some ⟨scenarioName, [], [], scenarioTags, none, lineNum⟩
          curIsBg := false
          bgDone := bgDone'
          curStep := curStep'
          tags := []
          inExamples := false }
  | .examplesLine =>
    some { st with inExamples := true, examplesData := [] }
  | .exampleRow =>
    some { st with examplesData := st.examplesData ++ [tableRowCells line] }
  | .stepLine =>
    let parts := pySplitCharOnce ' ' line
    let stype := pyLower (parts.getD 0 [])
    let stepText := parts.getD 1 []
    let ap := parseStepText stepText
    let step : PStep := ⟨stype, stepText, ap.1, ap.2, lineNum, none⟩
    some { st with
      current := match st.current with
                 | some c => some { c with steps := c.steps ++ [step] }
                 | none => none
      curStep := some (if st.current.isSome then .inCurrent else .orphan) }
  | .tableRow =>
    let row := tableRowCells line
    match st.curStep with
    | some .inCurrent =>
        some { st with
          current := match st.current with
                     | some c => some { c with steps := appendRowToLastStep c.steps row }
                     | none => none }
    | some .inBackground =>
        some { st with
          bgDone := match st.bgDone with
                    | some b => some { b with steps := appendRowToLastStep b.steps row }
                    | none => none }
    | some (.inAppended i) =>
        let updScen : PScenario → PScenario :=
          fun sc => { sc with steps := appendRowToLastStep sc.steps row }
        some { st with
          feature := match st.feature with
                     | some f => some { f with scenarios := modifyAt f.scenarios i updScen }
                     | none => none }
    | _ => some st
  | .other => some st

/-- One iteration of the parse loop: strip the raw line, then dispatch. -/
def parseLine (fp : Str) (st : ParserState) (lineNum : Nat) (raw : Str) :
    Option ParserState :=
  parseLineCore fp st lineNum (pyStrip raw)

/-- The parse loop over the numbered lines. -/
def parseLoop (fp : Str) : ParserState → List (Nat × Str) → Option ParserState
  | st, [] => some st
  | st, (n, l) :: rest =>
      match parseLine fp st n l with
      | some st' => parseLoop fp st' rest
      | none => none

/-- The end-of-file "add last scenario" step: attach pending Examples
rows to the last open scenario and append it (unless it is structurally
the background).  `none` is the raise on a missing feature. -/
def finishLast (st : ParserState) : Option (Option PFeature) :=
  match st.current with
  | some c =>
      if (match (if st.curIsBg then st.current else st.bgDone) with
          | some b => decide (c = b)
          | none => false) then some st.feature
      else
        match st.feature with
        | none => none
        | some f =>
            some (some { f with scenarios := f.scenarios ++
              [if st.inExamples && !st.examplesData.isEmpty then
                { c with examples := some (processExamples st.examplesData) }
               else c] })
  | none => some st.feature

/-- The end-of-file flush: append the last open scenario, then attach the
background. -/
def finishParse (st : ParserState) : Option PFeature :=
  match finishLast st with
  | none => none
  | some feat =>
      match (if st.curIsBg then st.current else st.bgDone) with
      | some b =>
          match feat with
          | some f => some { f with background := some b }
          | none => none
      | none => feat

/-- `FeatureParser._parse_feature_file` over a file's path and lines. -/
def parseFeatureFile (fp : Str) (lines : List Str) : Option PFeature :=
  match parseLoop fp ⟨none, none, false, none, none, false, [], []⟩
      (lines.enum.map fun il => (il.1 + 1, il.2)) with
  | some st => finishParse st
  | none => none

/-- `FeatureParser.parse_features`: parse every file and, when a
non-empty tag filter is supplied, keep only scenarios whose tag list
intersects it, dropping features left with no scenarios. -/
def parseFeatures (files : List (Str × List Str)) (tags : Option (List Str)) :
    List PFeature :=
  files.foldl
    (fun features file =>
      match parseFeatureFile file.1 file.2 with
      | none => features
      | some feature =>
          match tags with
          | some (t :: ts) =>
              let filtered := feature.scenarios.filter fun sc =>
                (t :: ts).any fun tag => sc.tags.contains tag
              if !filtered.isEmpty then
                features ++ [{ feature with scenarios := filtered }]
              else features
          | _ => features ++ [feature])
    []

/-! Stripping facts used to evaluate the parser on files whose scenario
names are arbitrary (already-stripped, nonempty) strings. -/

lemma dropWhile_length_le (p : Char → Bool) : ∀ l : Str, (l.dropWhile p).length ≤ l.length := by
  intro l
  induction l with
  | nil => simp
  | cons c cs ih =>
      by_cases h : p c
      · simp [List.dropWhile_cons, h]
        omega
      · simp [List.dropWhile_cons, h]

lemma dropWhile_eq_self_of_length {p : Char → Bool} :
    ∀ {l : Str}, (l.dropWhile p).length = l.length → l.dropWhile p = l := by
  intro l
  induction l with
  | nil => intro; rfl
  | cons c cs ih =>
      intro h
      by_cases hc : p c
      · rw [List.dropWhile_cons] at h ⊢
        simp only [hc, if_true] at h ⊢
        have := dropWhile_length_le p cs
        simp at h
        omega
      · simp [List.dropWhile_cons, hc]

lemma lstrip_eq_self {a : Str} (h : pyStrip a = a) : lstrip a = a := by
  have h1 : (lstrip a).length ≤ a.length := dropWhile_length_le _ _
  have h2 : (rstrip (lstrip a)).length ≤ (lstrip a).length := by
    unfold rstrip
    rw [List.length_reverse]
    calc ((lstrip a).reverse.dropWhile isWs).length ≤ (lstrip a).reverse.length :=
          dropWhile_length_le _ _
      _ = (lstrip a).length := List.length_reverse _
  have h3 : (pyStrip a).length = a.length := by rw [h]
  unfold pyStrip at h3
  have h4 : (lstrip a).length = a.length := by omega
  exact dropWhile_eq_self_of_length h4

lemma rstrip_eq_self {a : Str} (h : pyStrip a = a) : rstrip a = a := by
  have := h
  unfold pyStrip at this
  rw [lstrip_eq_self h] at this
  exact this

lemma rstrip_append {a : Str} (xs : Str) (hne : a ≠ []) (h : rstrip a = a) :
    rstrip (xs ++ a) = xs ++ a := by
  obtain ⟨d, ds, hrev⟩ : ∃ d ds, a.reverse = d :: ds := by
    cases hys : a.reverse with
    | nil => exact absurd (List.reverse_eq_nil_iff.mp hys) hne
    | cons d ds => exact ⟨d, ds, rfl⟩
  have hlen : a.length = ds.length + 1 := by
    have := congrArg List.length hrev
    simpa using this
  have hd : isWs d = false := by
    by_contra hc
    have hd' : isWs d = true := by simpa using hc
    have h' := h
    unfold rstrip at h'
    rw [hrev, List.dropWhile_cons, hd'] at h'
    simp only [if_true] at h'
    have hle := dropWhile_length_le isWs ds
    have := congrArg List.length h'
    simp at this
    omega
  unfold rstrip
  rw [List.reverse_append, hrev]
  have : List.dropWhile isWs (d :: (ds ++ xs.reverse)) = d :: (ds ++ xs.reverse) := by
    rw [List.dropWhile_cons, hd]
    simp
  rw [show (d :: ds) ++ xs.reverse = d :: (ds ++ xs.reverse) from rfl, this,
    show d :: (ds ++ xs.reverse) = (d :: ds) ++ xs.reverse from rfl, ← hrev,
    ← List.reverse_append, List.reverse_reverse]

lemma pyStrip_scenario_line {a : Str} (hne : a ≠ []) (ha : pyStrip a = a) :
    pyStrip (str "Scenario: " ++ a) = str "Scenario: " ++ a := by
  show rstrip (lstrip (str "Scenario: " ++ a)) = str "Scenario: " ++ a
  have h1 : lstrip (str "Scenario: " ++ a) = str "Scenario: " ++ a := rfl
  rw [h1]
  exact rstrip_append _ hne (rstrip_eq_self ha)

lemma pyStrip_after_colon {a : Str} (ha : pyStrip a = a) :
    pyStrip ((pySplitCharOnce ':' (str "Scenario: " ++ a)).getD 1 []) = a := by
  show rstrip (lstrip a) = a
  rw [lstrip_eq_self ha]
  exact rstrip_eq_self ha

lemma parseLoop_cons {fp : Str} {st st' : ParserState} {n : Nat} {l : Str}
    {rest : List (Nat × Str)} (h : parseLine fp st n l = some st') :
    parseLoop fp st ((n, l) :: rest) = parseLoop fp st' rest := by
  simp [parseLoop, h]

/-- The canonical claim-C2 feature file: a feature-level `@smoke` tag, a
scenario explicitly tagged `@smoke`, and a scenario with no tag line. -/
def smokeFile (a b : Str) : List Str :=
  [str "@smoke", str "Feature: Login", str "@smoke",
   str "Scenario: " ++ a, str "Scenario: " ++ b]

/-- C2 counterexample: parsing the canonical file with tag filter
`["@smoke"]` yields exactly one feature — but with exactly TWO scenarios,
not one: tag inheritance adds the feature's `@smoke` to the untagged
scenario, so it matches the filter too and is not dropped. -/
theorem tag_filtering_two_scenarios :
    (parseFeatures [(str "login.feature",
        smokeFile (str "Tagged one") (str "Untagged one"))] (some [str "@smoke"])).length = 1 ∧
    (parseFeatures [(str "login.feature",
        smokeFile (str "Tagged one") (str "Untagged one"))] (some [str "@smoke"])).map
      (fun f => f.scenarios.length) = [2] :=
  ⟨rfl, rfl⟩

/-- C2 amended: for every such feature file (arbitrary stripped nonempty
scenario names), `parse_features` with tag filter `["@smoke"]` yields
exactly one feature with exactly TWO scenarios — the explicitly tagged
one and the untagged one — both carrying the inherited tag list
`["@smoke"]`, so both match the filter. -/
theorem tag_filtering_inheritance_amended (a b : Str)
    (hane : a ≠ []) (ha : pyStrip a = a) (hbne : b ≠ []) (hb : pyStrip b = b) :
    (parseFeatures [(str "login.feature", smokeFile a b)] (some [str "@smoke"])).map
        (fun f => f.scenarios.map fun sc => (sc.name, sc.tags)) =
      [[(a, [str "@smoke"]), (b, [str "@smoke"])]] := by
  have hlineA := pyStrip_scenario_line hane ha
  have hlineB := pyStrip_scenario_line hbne hb
  have hnameA := pyStrip_after_colon ha
  have hnameB := pyStrip_after_colon hb
  have h1 : parseLine (str "login.feature") ⟨none, none, false, none, none, false, [], []⟩ 1
      (str "@smoke") =
      some ⟨none, none, false, none, none, false, [], [str "@smoke"]⟩ := rfl
  have h2 : parseLine (str "login.feature") ⟨none, none, false, none, none, false, [],
        [str "@smoke"]⟩ 2 (str "Feature: Login") =
      some ⟨some ⟨str "Login", [], [], [str "@smoke"], none, str "login.feature"⟩, none,
        false, none, none, false, [], [str "@smoke"]⟩ := rfl
  have h3 : parseLine (str "login.feature") ⟨some ⟨str "Login", [], [], [str "@smoke"], none,
        str "login.feature"⟩, none, false, none, none, false, [], [str "@smoke"]⟩ 3
      (str "@smoke") =
      some ⟨some ⟨str "Login", [], [], [str "@smoke"], none, str "login.feature"⟩, none,
        false, none, none, false, [], [str "@smoke"]⟩ := rfl
  have h4 : parseLine (str "login.feature") ⟨some ⟨str "Login", [], [], [str "@smoke"], none,
        str "login.feature"⟩, none, false, none, none, false, [], [str "@smoke"]⟩ 4
      (str "Scenario: " ++ a) =
      some ⟨some ⟨str "Login", [], [], [str "@smoke"], none, str "login.feature"⟩,
        some ⟨a, [], [], [str "@smoke"], none, 4⟩, false, none, none, false, [], []⟩ := by
    show parseLineCore (str "login.feature") _ 4 (pyStrip (str "Scenario: " ++ a)) = _
    rw [hlineA]
    have hred : parseLineCore (str "login.feature") ⟨some ⟨str "Login", [], [], [str "@smoke"],
          none, str "login.feature"⟩, none, false, none, none, false, [], [str "@smoke"]⟩ 4
        (str "Scenario: " ++ a) =
        some ⟨some ⟨str "Login", [], [], [str "@smoke"], none, str "login.feature"⟩,
          some ⟨pyStrip ((pySplitCharOnce ':' (str "Scenario: " ++ a)).getD 1 []), [], [],
            [str "@smoke"], none, 4⟩, false, none, none, false, [], []⟩ := rfl
    rw [hred, hnameA]
  have h5 : parseLine (str "login.feature") ⟨some ⟨str "Login", [], [], [str "@smoke"], none,
        str "login.feature"⟩, some ⟨a, [], [], [str "@smoke"], none, 4⟩, false, none, none,
        false, [], []⟩ 5 (str "Scenario: " ++ b) =
      some ⟨some ⟨str "Login", [], [⟨a, [], [], [str "@smoke"], none, 4⟩], [str "@smoke"],
          none, str "login.feature"⟩,
        some ⟨b, [], [], [str "@smoke"], none, 5⟩, false, none, none, false, [], []⟩ := by
    show parseLineCore (str "login.feature") _ 5 (pyStrip (str "Scenario: " ++ b)) = _
    rw [hlineB]
    have hred : parseLineCore (str "login.feature") ⟨some ⟨str "Login", [], [], [str "@smoke"],
          none, str "login.feature"⟩, some ⟨a, [], [], [str "@smoke"], none, 4⟩, false, none,
          none, false, [], []⟩ 5 (str "Scenario: " ++ b) =
        some ⟨some ⟨str "Login", [], [⟨a, [], [], [str "@smoke"], none, 4⟩], [str "@smoke"],
            none, str "login.feature"⟩,
          some ⟨pyStrip ((pySplitCharOnce ':' (str "Scenario: " ++ b)).getD 1 []), [], [],
            [str "@smoke"], none, 5⟩, false, none, none, false, [], []⟩ := rfl
    rw [hred, hnameB]
  have hfile : parseFeatureFile (str "login.feature") (smokeFile a b) =
      some ⟨str "Login", [], [⟨a, [], [], [str "@smoke"], none, 4⟩,
        ⟨b, [], [], [str "@smoke"], none, 5⟩], [str "@smoke"], none, str "login.feature"⟩ := by
    show (match parseLoop (str "login.feature") ⟨none, none, false, none, none, false, [], []⟩
        [(1, str "@smoke"), (2, str "Feature: Login"), (3, str "@smoke"),
         (4, str "Scenario: " ++ a), (5, str "Scenario: " ++ b)] with
      | some st => finishParse st
      | none => none) = _
    rw [parseLoop_cons h1, parseLoop_cons h2, parseLoop_cons h3, parseLoop_cons h4,
      parseLoop_cons h5]
    rfl
  have hstep : parseFeatures [(str "login.feature", smokeFile a b)] (some [str "@smoke"]) =
      (match parseFeatureFile (str "login.feature") (smokeFile a b) with
       | none => ([] : List PFeature)
       | some feature =>
          let filtered := feature.scenarios.filter fun sc =>
            ([str "@smoke"]).any fun tag => sc.tags.contains tag
          if !filtered.isEmpty then [{ feature with scenarios := filtered }] else []) := rfl
  rw [hstep, hfile]
  rfl

/-- Witness for C2's amended claim at the canonical concrete names. -/
theorem tag_filtering_inheritance_amended_witness :
    ((str "Tagged one" ≠ ([] : Str)) ∧ pyStrip (str "Tagged one") = str "Tagged one" ∧
      (str "Untagged one" ≠ ([] : Str)) ∧
      pyStrip (str "Untagged one") = str "Untagged one") ∧
    (parseFeatures [(str "login.feature", smokeFile (str "Tagged one") (str "Untagged one"))]
        (some [str "@smoke"])).map
        (fun f => f.scenarios.map fun sc => (sc.name, sc.tags)) =
      [[(str "Tagged one", [str "@smoke"]), (str "Untagged one", [str "@smoke"])]] :=
  ⟨⟨by decide, rfl, by decide, rfl⟩,
    tag_filtering_inheritance_amended (str "Tagged one") (str "Untagged one") (by decide) rfl
      (by decide) rfl⟩

/-! C10: Examples tables are attached only at the end-of-file flush, so
in every returned Feature only the last scenario can carry one. -/

/-- The parser-state invariant behind C10: every scenario already
appended to the feature, and the open scenario, have no examples. -/
def ExamplesUnset (st : ParserState) : Prop :=
  (∀ f sc, st.feature = some f → sc ∈ f.scenarios → sc.examples = none) ∧
  (∀ c, st.current = some c → c.examples = none)

lemma mem_modifyAt {α} {l : List α} {i : Nat} {g : α → α} {x : α}
    (hx : x ∈ modifyAt l i g) : x ∈ l ∨ ∃ y ∈ l, x = g y := by
  induction l generalizing i with
  | nil => simp [modifyAt] at hx
  | cons hd tl ih =>
      cases i with
      | zero =>
          simp only [modifyAt, List.mem_cons] at hx
          rcases hx with h | h
          · exact Or.inr ⟨hd, List.mem_cons_self _ _, h⟩
          · exact Or.inl (List.mem_cons_of_mem _ h)
      | succ j =>
          simp only [modifyAt, List.mem_cons] at hx
          rcases hx with h | h
          · exact Or.inl (h ▸ List.mem_cons_self _ _)
          · rcases ih h with h' | ⟨y, hy, hxy⟩
            · exact Or.inl (List.mem_cons_of_mem _ h')
            · exact Or.inr ⟨y, List.mem_cons_of_mem _ hy, hxy⟩

lemma closeForNewScenario_examples {st : ParserState}
    {f' : Option PFeature} {b' : Option PScenario} {c' : Option StepLoc}
    (h : closeForNewScenario st = some (f', b', c'))
    (hF : ∀ f sc, st.feature = some f → sc ∈ f.scenarios → sc.examples = none)
    (hC : ∀ c, st.current = some c → c.examples = none) :
    ∀ f sc, f' = some f → sc ∈ f.scenarios → sc.examples = none := by
  intro f sc hf hsc
  unfold closeForNewScenario at h
  repeat any_goals split at h
  all_goals cases h
  all_goals try exact hF f sc hf hsc
  all_goals simp only [Option.some.injEq] at hf
  all_goals rw [← hf] at hsc
  all_goals dsimp only at hsc
  all_goals simp only [List.mem_append, List.mem_singleton] at hsc
  all_goals rcases hsc with hsc | hsc
  all_goals first
    | exact hF _ sc (by assumption) hsc
    | (rw [hsc]; exact hC _ (by assumption))

lemma parseLine_examples_unset {fp : Str} {st st' : ParserState} {n : Nat} {raw : Str}
    (h : parseLine fp st n raw = some st') (hInv : ExamplesUnset st) : ExamplesUnset st' := by
  obtain ⟨hF, hC⟩ := hInv
  unfold parseLine parseLineCore at h
  split at h
  · injection h with h
    subst h
    exact ⟨hF, hC⟩
  · injection h with h
    subst h
    exact ⟨hF, hC⟩
  · injection h with h
    subst h
    refine ⟨?_, hC⟩
    intro f sc hf hsc
    simp only [Option.some.injEq] at hf
    rw [← hf] at hsc
    simp at hsc
  · injection h with h
    subst h
    refine ⟨hF, ?_⟩
    intro c hc
    simp only [Option.some.injEq] at hc
    rw [← hc]
  · -- Scenario:/Scenario Outline: line
    split at h
    all_goals cases h
    all_goals refine ⟨fun f sc hf hsc => ?_, fun c hc => ?_⟩
    all_goals first
      | exact closeForNewScenario_examples (by assumption) hF hC f sc hf hsc
      | (simp only [Option.some.injEq] at hc
         rw [← hc])
  · injection h with h
    subst h
    exact ⟨hF, hC⟩
  · injection h with h
    subst h
    exact ⟨hF, hC⟩
  · -- step line
    simp only [Option.some.injEq] at h
    subst h
    refine ⟨hF, ?_⟩
    intro c hc
    dsimp only at hc
    cases hcur : st.current with
    | none =>
        rw [hcur] at hc
        exact absurd hc (by simp)
    | some c0 =>
        rw [hcur] at hc
        simp only [Option.some.injEq] at hc
        rw [← hc]
        exact hC c0 hcur
  · -- data-table row
    split at h
    · simp only [Option.some.injEq] at h
      subst h
      refine ⟨hF, ?_⟩
      intro c hc
      dsimp only at hc
      cases hcur : st.current with
      | none =>
          rw [hcur] at hc
          exact absurd hc (by simp)
      | some c0 =>
          rw [hcur] at hc
          simp only [Option.some.injEq] at hc
          rw [← hc]
          exact hC c0 hcur
    · simp only [Option.some.injEq] at h
      subst h
      exact ⟨hF, hC⟩
    · simp only [Option.some.injEq] at h
      subst h
      refine ⟨?_, hC⟩
      intro f sc hf hsc
      dsimp only at hf
      cases hfeat : st.feature with
      | none =>
          rw [hfeat] at hf
          exact absurd hf (by simp)
      | some f0 =>
          rw [hfeat] at hf
          simp only [Option.some.injEq] at hf
          rw [← hf] at hsc
          dsimp only at hsc
          rcases mem_modifyAt hsc with hm | ⟨y, hy, hxy⟩
          · exact hF f0 sc hfeat hm
          · rw [hxy]
            exact hF f0 y hfeat hy
    all_goals
      injection h with h
      subst h
      exact ⟨hF, hC⟩
  · injection h with h
    subst h
    exact ⟨hF, hC⟩

lemma parseLoop_examples_unset {fp : Str} :
    ∀ {rest : List (Nat × Str)} {st st' : ParserState},
      parseLoop fp st rest = some st' → ExamplesUnset st → ExamplesUnset st' := by
  intro rest
  induction rest with
  | nil =>
      intro st st' h hInv
      injection h with h
      subst h
      exact hInv
  | cons nl tl ih =>
      intro st st' h hInv
      obtain ⟨n, l⟩ := nl
      unfold parseLoop at h
      split at h
      · rename_i st1 hstep
        exact ih h (parseLine_examples_unset hstep hInv)
      · exact absurd h (by simp)

/-- C10: in every Feature returned by the parser, every scenario except
possibly the last has no examples table — Examples rows are converted
and attached only at the end-of-file flush, so a scenario closed by a
subsequent `Scenario:`/`Scenario Outline:` line has its collected
Examples rows silently discarded (its `examples` field stays unset). -/
theorem examples_only_on_last_scenario (fp : Str) (lines : List Str) (feat : PFeature)
    (h : parseFeatureFile fp lines = some feat) :
    ∀ sc ∈ feat.scenarios.dropLast, sc.examples = none := by
  unfold parseFeatureFile at h
  split at h
  case h_2 => exact absurd h (by simp)
  case h_1 st hloop =>
    obtain ⟨hF, hC⟩ := parseLoop_examples_unset hloop
      ⟨fun f sc hf => by simp at hf, fun c hc => by simp at hc⟩
    unfold finishParse at h
    split at h
    · exact absurd h (by simp)
    · rename_i featOpt hlast
      have hfeatScen : ∀ f, featOpt = some f → ∀ sc ∈ f.scenarios.dropLast,
          sc.examples = none := by
        unfold finishLast at hlast
        repeat any_goals split at hlast
        all_goals cases hlast
        all_goals intro f hf sc hsc
        all_goals try exact hF f sc hf ((List.dropLast_sublist _).subset hsc)
        all_goals simp only [Option.some.injEq] at hf
        all_goals rw [← hf] at hsc
        all_goals dsimp only at hsc
        all_goals rw [show ∀ (xs : List PScenario) (y : PScenario), (xs ++ [y]).dropLast = xs
          from fun xs y => by simp] at hsc
        all_goals exact hF _ sc (by assumption) hsc
      repeat any_goals split at h
      all_goals cases h
      all_goals intro sc hsc
      all_goals first
        | exact hfeatScen _ (by assumption) sc hsc
        | exact hfeatScen _ rfl sc hsc

/-- Witness for C10 at a concrete file: a `Scenario Outline` whose
collected `Examples` rows are discarded when the next `Scenario:` line
closes it — the returned feature's first scenario has no examples. -/
theorem examples_only_on_last_scenario_witness :
    parseFeatureFile (str "f.feature")
      [str "Feature: F", str "Scenario Outline: One", str "Examples:", str "| x |",
       str "| 1 |", str "Scenario: Two"] =
      some ⟨str "F", [], [⟨str "One", [], [], [], none, 2⟩, ⟨str "Two", [], [], [], none, 6⟩],
        [], none, str "f.feature"⟩ ∧
    (∀ sc ∈ (PFeature.mk (str "F") [] [⟨str "One", [], [], [], none, 2⟩,
        ⟨str "Two", [], [], [], none, 6⟩] [] none (str "f.feature")).scenarios.dropLast,
      sc.examples = none) :=
  ⟨rfl, examples_only_on_last_scenario (str "f.feature")
    [str "Feature: F", str "Scenario Outline: One", str "Examples:", str "| x |",
     str "| 1 |", str "Scenario: Two"] _ rfl⟩

/-! ## AI Element Finder (`src/core/ai_element_finder.py`)

`find_element`'s DOM and model interactions are the boundary: for a
fixed page and description, `page.locator(sel).count()` is the oracle
`locCount` (`none` models a raised exception, e.g. `locator(None)`),
`_pattern_match` on the main document is `pmMain`, `_pattern_match`
inside each iframe (with frame-access failures already swallowed to
`none`) is `pmFrames`, and `_ai_detect` is `aiDetect`.  The per-instance
in-memory `element_cache` and the attached Cache Manager state are
explicit. -/

/-- The `ElementInfo` dictionary produced by a resolution. -/
structure EInfo where
  etype : Str
  selector : Option Str
  position : Int × Int
  bounds : Option (Int × Int × Int × Int)
  confidence : Int
  inIframe : Bool
deriving DecidableEq

/-- `AIElementFinder` instance state: whether a visual model is loaded,
the in-memory `element_cache`, and the optionally attached Cache
Manager's in-memory cache. -/
structure FinderState where
  modelLoaded : Bool
  elementCache : Dict EInfo
  cacheManager : Option (Dict (CacheEntry EInfo))

/-- `AIElementFinder._cache_element`: with a Cache Manager attached,
write the resolution into the in-memory cache and persist it through
`CacheManager.save_cache`. -/
def cacheElement (key : Str) (info : EInfo) (now : Int) (fs : FinderState) : FinderState :=
  match fs.cacheManager with
  | some cm =>
      { fs with
        elementCache := dset fs.elementCache key info
        cacheManager := some (saveCache cm key info now) }
  | none => fs

/-- First successful per-iframe pattern match (the `for iframe_element
in iframes` loop with its swallowed failures). -/
def firstFrameHit (pmFrames : List (Option EInfo)) : Option EInfo :=
  (pmFrames.filterMap id).head?

/-- `AIElementFinder.find_element`: cache check (gated on an attached
Cache Manager, reading only the in-memory `element_cache` and
re-verifying the cached selector against the page), then main-document
pattern match, then iframe pattern match, then visual-model detection;
every fresh resolution is written back through `_cache_element`. -/
def findElement (urlv desc : Str) (locCount : Str → Option Nat)
    (pmMain : Option EInfo) (pmFrames : List (Option EInfo)) (aiDetect : Option EInfo)
    (screenshot : Bool) (now : Int) (fs : FinderState) : Option EInfo × FinderState :=
  let cacheKey := urlv ++ str ":" ++ desc
  let cachedHit : Option EInfo :=
    if fs.cacheManager.isSome then
      match dget fs.elementCache cacheKey with
      | some cached =>
          (match cached.selector with
           | some sel =>
               (match locCount sel with
                | some cnt => if cnt > 0 then some cached else none
                | none => none)
           | none => none)
      | none => none
    else none
  match cachedHit with
  | some cached => (some cached, fs)
  | none =>
      match pmMain with
      | some info => (some info, cacheElement cacheKey info now fs)
      | none =>
          match firstFrameHit pmFrames with
          | some info =>
              let info' := { info with inIframe := true }
              (some info', cacheElement cacheKey info' now fs)
          | none =>
              if fs.modelLoaded && screenshot then
                match aiDetect with
                | some info => (some info, cacheElement cacheKey info now fs)
                | none => (none, fs)
              else (none, fs)

/-- C9: `find_element` never reads the persisted cache — its result and
its in-memory `element_cache` update are independent of the attached
Cache Manager's contents.  Two runs identical except for the
disk-loaded cache state return the same resolution; the disk cache is
write-only from the finder's perspective. -/
theorem find_element_ignores_persisted_cache (urlv desc : Str)
    (locCount : Str → Option Nat) (pmMain : Option EInfo) (pmFrames : List (Option EInfo))
    (aiDetect : Option EInfo) (screenshot : Bool) (now : Int) (ml : Bool) (ec : Dict EInfo)
    (cm₁ cm₂ : Dict (CacheEntry EInfo)) :
    (findElement urlv desc locCount pmMain pmFrames aiDetect screenshot now
        ⟨ml, ec, some cm₁⟩).1 =
      (findElement urlv desc locCount pmMain pmFrames aiDetect screenshot now
        ⟨ml, ec, some cm₂⟩).1 ∧
    (findElement urlv desc locCount pmMain pmFrames aiDetect screenshot now
        ⟨ml, ec, some cm₁⟩).2.elementCache =
      (findElement urlv desc locCount pmMain pmFrames aiDetect screenshot now
        ⟨ml, ec, some cm₂⟩).2.elementCache := by
  constructor <;>
    · simp only [findElement, cacheElement, Option.isSome_some]
      repeat any_goals split
      all_goals simp_all

/-! ## API Executor (`src/executor/api_executor.py`)

The async HTTP client and the JSONPath evaluator are the boundary: the
HTTP request is the oracle `http` (success with decoded body, timeout,
or transport failure) and JSONPath extraction is the oracle `jp` giving
the first match of an expression against a decoded body.  YAML-decoded
values are `RVal`; `str()` of a stored value is exact for scalars and a
canonical repr-style rendering for containers (no catalogue in this
development interpolates a container). -/

/-- A YAML/JSON value as the API executor sees it. -/
inductive RVal where
  | s (v : Str)
  | i (n : Int)
  | m (entries : List (Str × RVal))
  | l (xs : List RVal)

instance : Inhabited RVal := ⟨.i 0⟩

/-- Decimal rendering of an integer. -/
def intStr (n : Int) : Str :=
  if n < 0 then '-' :: natStr (-n).toNat else natStr n.toNat

/-- Python `repr` of a value (canonical form; exact on scalars). -/
def pyRepr : RVal → Str
  | .s v => sq ++ v ++ sq
  | .i n => intStr n
  | .m entries => [Char.ofNat 123] ++
      joinSep (str ", ")
        (entries.attach.map fun kv => sq ++ kv.1.1 ++ sq ++ str ": " ++ pyRepr kv.1.2) ++
      [Char.ofNat 125]
  | .l xs => str "[" ++ joinSep (str ", ") (xs.attach.map fun x => pyRepr x.1) ++ str "]"
decreasing_by
  · obtain ⟨⟨k, v⟩, hm⟩ := kv
    have := List.sizeOf_lt_of_mem hm
    simp at this ⊢
    omega
  · have := List.sizeOf_lt_of_mem x.2
    simp at this ⊢
    omega

/-- Python `str` of a stored value. -/
def pyStrRVal : RVal → Str
  | .s v => v
  | v => pyRepr v

/-- Python truthiness of a value (for `not self.auth_token`). -/
def rvalFalsy : RVal → Bool
  | .s t => t.isEmpty
  | .i n => decide (n = 0)
  | .m entries => entries.isEmpty
  | .l xs => xs.isEmpty

/-- Truthiness of the dedicated auth-token slot. -/
def tokenFalsy : Option RVal → Bool
  | none => true
  | some v => rvalFalsy v

/-- The variable-resolution pattern of `_resolve_variables`:
`\$\{([^:}]+)(?::([^}]+))?\}`. -/
def varPatternRe : Re :=
  seqAll [.lit dollarBrace, .grp 1 (.plus (.cls (str ":" ++ braceClose) true)),
    .opt (.seq (rlit ":") (.grp 2 (.plus (.cls braceClose true)))), .lit braceClose]

/-- `APIExecutor._resolve_variables` via `re.sub` with a replacer that
raises a MissingData `ValueError` for an unbound variable with no
default: scan left to right, replacing each `${name}`/`${name:default}`
from the context, the dedicated `auth_token` slot, or the default. -/
def resolveVarsAux (ctx : Dict RVal) (tok : Option RVal) : Nat → Str → Except Str Str
  | 0, s => .ok s
  | fuel + 1, s =>
    match mat ((reSize varPatternRe + 4) * (s.length + 4) * 4) varPatternRe s []
        (fun rest caps => some (rest, caps)) with
    | some (rest, caps) =>
        let varName := (capsGet caps 1).getD []
        let dflt := capsGet caps 2
        let rep : Except Str Str :=
          if dmem ctx varName then .ok (pyStrRVal ((dget ctx varName).getD (.s [])))
          else if varName = str "auth_token" && !tokenFalsy tok then
            .ok (pyStrRVal (tok.getD (.s [])))
          else
            match dflt with
            | some d => .ok d
            | none => .error (str "Variable " ++ sq ++ varName ++ sq ++
                str " not found in context")
        match rep with
        | .ok r => (resolveVarsAux ctx tok fuel rest).map fun restRes => r ++ restRes
        | .error e => .error e
    | none =>
        match s with
        | [] => .ok []
        | c :: t => (resolveVarsAux ctx tok fuel t).map fun r => c :: r

/-- `_resolve_variables` on a string. -/
def resolveVars (ctx : Dict RVal) (tok : Option RVal) (s : Str) : Except Str Str :=
  resolveVarsAux ctx tok (s.length + 1) s

/-- Resolve the string elements of a list (the list comprehension inside
`_resolve_dict_variables`; non-string items pass through unchanged). -/
def resolveStrList (ctx : Dict RVal) (tok : Option RVal) : List RVal → Except Str (List RVal)
  | [] => .ok []
  | .s t :: rest => do
      let t' ← resolveVars ctx tok t
      let r ← resolveStrList ctx tok rest
      .ok (.s t' :: r)
  | x :: rest => do
      let r ← resolveStrList ctx tok rest
      .ok (x :: r)

mutual

/-- `APIExecutor._resolve_dict_variables`: resolve string values, recurse
into dict values, resolve the string elements of list values, keep
everything else. -/
def resolveRMapM (ctx : Dict RVal) (tok : Option RVal) :
    List (Str × RVal) → Except Str (List (Str × RVal))
  | [] => .ok []
  | (k, v) :: rest => do
      let v' ← resolveRValM ctx tok v
      let rest' ← resolveRMapM ctx tok rest
      .ok ((k, v') :: rest')

/-- One value inside `_resolve_dict_variables`. -/
def resolveRValM (ctx : Dict RVal) (tok : Option RVal) : RVal → Except Str RVal
  | .s t => (resolveVars ctx tok t).map RVal.s
  | .m sub => (resolveRMapM ctx tok sub).map RVal.m
  | .l xs => (resolveStrList ctx tok xs).map RVal.l
  | .i n => .ok (.i n)

end

/-- One API definition from the catalogue. -/
structure ApiDef where
  adName : Option Str
  method : Str
  endpoint : Str
  headers : List (Str × RVal)
  auth : Option Str
  requestBody : Option (List (Str × RVal))
  requestQuery : Option (List (Str × RVal))
  responseExtract : Option (List (Str × Str))
  vStatus : Option Int
  vBody : Option (List (Str × Option Bool × Option RVal))
  vMaxTime : Option Int
  hasValidation : Bool

/-- `APIExecutor._get_api_config`: scan every category in catalogue
order; `ValueError` if the name is in none of them. -/
def getApiConfig (catalog : List (Str × Dict ApiDef)) (apiName : Str) : Except Str ApiDef :=
  match catalog with
  | [] => .error (str "API " ++ sq ++ apiName ++ sq ++ str " not found in configuration")
  | (_, apis) :: rest =>
      match dget apis apiName with
      | some d => .ok d
      | none => getApiConfig rest apiName

/-- The request snapshot logged with every call (`request_details`). -/
structure RequestDetails where
  rdMethod : Str
  rdUrl : Str
  rdHeaders : List (Str × RVal)
  rdParams : Option (List (Str × RVal))
  rdBody : Option (List (Str × RVal))

/-- The HTTP boundary: the transport either answers (status, headers,
decoded body — already the `response_json if response_json else
response_text` selection —, elapsed time, final URL) or fails.  A
`failure` carries `str(e)` of the transport exception and the elapsed
time. -/
inductive HttpOutcome where
  | success (status : Int) (headers : List (Str × RVal)) (body : RVal)
      (rtime : Int) (finalUrl : Str)
  | timeoutErr
  | failure (msg : Str) (elapsed : Int)

/-- The `result` dict built from a completed response. -/
structure ApiResult where
  arStatus : Int
  arHeaders : List (Str × RVal)
  arBody : RVal
  arTime : Int
  arUrl : Str

/-- One record of `APITestReporter.test_results` (the timestamp, a clock
read, is omitted). -/
structure ApiLogRecord where
  alTest : Str
  alRequest : RequestDetails
  alStatus : Int
  alTime : Int
  alHeaders : List (Str × RVal)
  alBody : RVal
  alError : Option Str
  alPassed : Bool

/-- `APITestReporter.log_api_call`: append a record; it counts as passed
when the status is below 400 and the error slot is not truthy. -/
def logApiCall (log : List ApiLogRecord) (req : RequestDetails) (status : Int)
    (rtime : Int) (hdrs : List (Str × RVal)) (body : RVal) (err : Option Str)
    (tn : Str) : List ApiLogRecord :=
  let errTruthy : Bool := match err with | some e => !e.isEmpty | none => false
  log ++ [⟨tn, req, status, rtime, hdrs, body, err, decide (status < 400) && !errTruthy⟩]

/-- The executor state threaded through a call: the shared context, the
dedicated auth-token slot, and the reporter's record list. -/
structure ApiState where
  context : Dict RVal
  authToken : Option RVal
  reporterLog : List ApiLogRecord

/-- `APIExecutor.store_value`. -/
def storeValue (st : ApiState) (k : Str) (v : RVal) : ApiState :=
  { st with context := dset st.context k v }

/-- `APIExecutor._extract_response_values` with the JSONPath evaluator
`jp` as oracle giving the first match of an expression; a dict body is
required, `auth_token` also fills the dedicated slot, expressions with
no match are skipped. -/
def extractResponseValues (jp : Str → RVal → Option RVal) (body : RVal)
    (ex : List (Str × Str)) (st : ApiState) : ApiState :=
  match body with
  | .m _ =>
      ex.foldl (fun s kv =>
        match jp kv.2 body with
        | some v =>
            let s1 := storeValue s kv.1 v
            if kv.1 = str "auth_token" then { s1 with authToken := some v } else s1
        | none => s) st
  | _ => st

mutual

/-- Structural equality of decoded values (Python `!=` on decoded JSON). -/
def rvalBeq : RVal → RVal → Bool
  | .s a, .s b => decide (a = b)
  | .i a, .i b => decide (a = b)
  | .m a, .m b => rvalBeqEntries a b
  | .l a, .l b => rvalBeqList a b
  | _, _ => false

/-- Structural equality on dict entries. -/
def rvalBeqEntries : List (Str × RVal) → List (Str × RVal) → Bool
  | [], [] => true
  | (k, v) :: a, (k2, v2) :: b => decide (k = k2) && rvalBeq v v2 && rvalBeqEntries a b
  | _, _ => false

/-- Structural equality on lists of values. -/
def rvalBeqList : List RVal → List RVal → Bool
  | [], [] => true
  | x :: a, y :: b => rvalBeq x y && rvalBeqList a b
  | _, _ => false

end

/-- `APIExecutor._validate_json_path` for one body rule
`(path, exists?, equals?)`. -/
def validateJsonPath (jp : Str → RVal → Option RVal) (data : RVal)
    (rule : Str × Option Bool × Option RVal) : Except Str Unit :=
  let jpath := rule.1
  let matchv := jp jpath data
  let eqCheck : Except Str Unit :=
    match rule.2.2 with
    | some expected =>
        match matchv with
        | none => .error (str "Path " ++ sq ++ jpath ++ sq ++ str " does not exist")
        | some actual =>
            if rvalBeq actual expected then .ok ()
            else .error (str "Path " ++ sq ++ jpath ++ sq ++ str ": expected " ++ sq ++
              pyStrRVal expected ++ sq ++ str ", got " ++ sq ++ pyStrRVal actual ++ sq)
    | none => .ok ()
  match rule.2.1 with
  | some ex =>
      if ex && matchv.isNone then
        .error (str "Path " ++ sq ++ jpath ++ sq ++ str " does not exist")
      else if !ex && matchv.isSome then
        .error (str "Path " ++ sq ++ jpath ++ sq ++ str " exists but should not")
      else eqCheck
  | none => eqCheck

/-- The body rules of `_validate_response`, in order. -/
def validateRules (jp : Str → RVal → Option RVal) (body : RVal) :
    List (Str × Option Bool × Option RVal) → Except Str Unit
  | [] => .ok ()
  | r :: rest => do
      validateJsonPath jp body r
      validateRules jp body rest

/-- `APIExecutor._validate_response`: status code, then body rules (only
against a dict body), then response time (times at the boundary are
integral). -/
def validateResponse (jp : Str → RVal → Option RVal) (res : ApiResult)
    (d : ApiDef) : Except Str Unit := do
  match d.vStatus with
  | some s =>
      if decide (res.arStatus ≠ s) then
        throw (str "Expected status " ++ intStr s ++ str ", got " ++ intStr res.arStatus)
      else pure ()
  | none => pure ()
  match d.vBody, res.arBody with
  | some rules, .m _ => validateRules jp res.arBody rules
  | _, _ => pure ()
  match d.vMaxTime with
  | some m =>
      if decide (res.arTime > m) then
        throw (str "Response time " ++ intStr res.arTime ++ str "s exceeds maximum " ++
          intStr m ++ str "s")
      else pure ()
  | none => pure ()

/-- `test_name or api_name` (Python truthiness on the optional name). -/
def orName (t : Option Str) (d : Str) : Str :=
  match t with
  | some s => if s.isEmpty then d else s
  | none => d

/-- The tail of `execute_api` from issuing the request onward: perform
the call, log it, extract, validate; a timeout or transport failure is
logged with status 0 and re-raised.  The third component lists the
requests actually handed to the transport. -/
def execApiCore (http : RequestDetails → HttpOutcome) (jp : Str → RVal → Option RVal)
    (timeout : Int) (apiConfig : ApiDef) (apiName : Str) (testName : Option Str)
    (st1 : ApiState) (rd : RequestDetails) :
    Except Str ApiResult × ApiState × List RequestDetails :=
  match http rd with
  | .success status rheaders rbody rtime finalUrl =>
      let result : ApiResult := ⟨status, rheaders, rbody, rtime, finalUrl⟩
      let newLog := logApiCall st1.reporterLog rd status rtime rheaders rbody none
        (orName testName apiName)
      let st2 := { st1 with reporterLog := newLog }
      let st3 :=
        match apiConfig.responseExtract with
        | some ex => extractResponseValues jp rbody ex st2
        | none => st2
      if apiConfig.hasValidation then
        match validateResponse jp result apiConfig with
        | .ok _ => (.ok result, st3, [rd])
        | .error e => (.error e, st3, [rd])
      else (.ok result, st3, [rd])
  | .timeoutErr =>
      let newLog := logApiCall st1.reporterLog rd 0 timeout [] (.m [])
        (some (str "Request timeout after " ++ intStr timeout ++ str "s"))
        (orName testName apiName)
      (.error (str "TimeoutError"), { st1 with reporterLog := newLog }, [rd])
  | .failure m elapsed =>
      let newLog := logApiCall st1.reporterLog rd 0 elapsed [] (.m [])
        (some (str "Request failed: " ++ m)) (orName testName apiName)
      (.error m, { st1 with reporterLog := newLog }, [rd])

/-- `execute_api` after the definition is found and the keyword
parameters are stored: resolve the endpoint, build the URL, resolve the
headers, check the auth precondition, resolve body and query, then issue
the request.  Each resolution `ValueError` propagates before anything is
issued or logged. -/
def execApiWithConfig (http : RequestDetails → HttpOutcome) (jp : Str → RVal → Option RVal)
    (baseUrl : Str) (timeout : Int) (apiConfig : ApiDef) (apiName : Str)
    (testName : Option Str) (st1 : ApiState) :
    Except Str ApiResult × ApiState × List RequestDetails :=
  match resolveVars st1.context st1.authToken apiConfig.endpoint with
  | .error e => (.error e, st1, [])
  | .ok endpoint =>
    match resolveRMapM st1.context st1.authToken apiConfig.headers with
    | .error e => (.error e, st1, [])
    | .ok headers =>
      if decide (apiConfig.auth = some (str "required")) && tokenFalsy st1.authToken then
        (.error (str "Authentication required but no auth token available"), st1, [])
      else
        match (match apiConfig.requestBody with
               | some b => (resolveRMapM st1.context st1.authToken b).map some
               | none => (.ok none : Except Str (Option (List (Str × RVal))))) with
        | .error e => (.error e, st1, [])
        | .ok body =>
          match (match apiConfig.requestQuery with
                 | some q => (resolveRMapM st1.context st1.authToken q).map some
                 | none => (.ok none : Except Str (Option (List (Str × RVal))))) with
          | .error e => (.error e, st1, [])
          | .ok params =>
            execApiCore http jp timeout apiConfig apiName testName st1
              ⟨apiConfig.method, baseUrl ++ endpoint, headers, params, body⟩

/-- `APIExecutor.execute_api`: look the definition up, store the keyword
parameters in the context, then build and issue the request. -/
def execApi (http : RequestDetails → HttpOutcome) (jp : Str → RVal → Option RVal)
    (baseUrl : Str) (timeout : Int) (catalog : List (Str × Dict ApiDef))
    (apiName : Str) (testName : Option Str) (kwargs : List (Str × RVal))
    (st : ApiState) : Except Str ApiResult × ApiState × List RequestDetails :=
  match getApiConfig catalog apiName with
  | .error e => (.error e, st, [])
  | .ok apiConfig =>
      execApiWithConfig http jp baseUrl timeout apiConfig apiName testName
        (kwargs.foldl (fun s kv => storeValue s kv.1 kv.2) st)

/-- A definition with `auth: required` whose endpoint interpolates an
unbound variable. -/
def authRequiredDef : ApiDef :=
  ⟨none, str "GET", str "/users/" ++ dollarBrace ++ str "user_id" ++ braceClose, [],
    some (str "required"), none, none, none, none, none, none, false⟩

/-- A definition with `auth: required` and a literal endpoint. -/
def authDefPlain : ApiDef :=
  ⟨none, str "POST", str "/login", [], some (str "required"), none, none, none,
    none, none, none, false⟩

/-- A two-category catalogue holding both definitions. -/
def apiCatalogX : List (Str × Dict ApiDef) :=
  [(str "users", [(str "get_user", authRequiredDef)]),
   (str "auth", [(str "login", authDefPlain)])]

/-- A transport that records any call as a failure (the theorems show it
is never reached). -/
def httpNone : RequestDetails → HttpOutcome := fun _ => .failure (str "unreachable") 0

/-- A JSONPath evaluator with no matches. -/
def jpNone : Str → RVal → Option RVal := fun _ _ => none

/-- A freshly constructed executor: empty context, no token, empty log. -/
def apiStateFresh : ApiState := ⟨[], none, []⟩

/-- The keyword-parameter fold of `execute_api` touches only the context:
the auth-token slot and the reporter log pass through unchanged. -/
theorem applyKwargs_preserves (kwargs : List (Str × RVal)) (st : ApiState) :
    (kwargs.foldl (fun s kv => storeValue s kv.1 kv.2) st).authToken = st.authToken ∧
    (kwargs.foldl (fun s kv => storeValue s kv.1 kv.2) st).reporterLog = st.reporterLog := by
  induction kwargs generalizing st with
  | nil => exact ⟨rfl, rfl⟩
  | cons kv rest ih =>
      rw [List.foldl_cons]
      exact ih (storeValue st kv.1 kv.2)

/-- C7, counterexample: `execute_api` resolves the endpoint before it
checks the auth precondition, so a definition with `auth: required`
whose endpoint holds an unbound `$\x7buser_id\x7d` raises the
missing-variable `ValueError`, not the AuthRequired-style one — though
still without issuing a request. -/
theorem api_auth_precondition_counterexample :
    (execApi httpNone jpNone (str "https://api.example.com") 30 apiCatalogX
        (str "get_user") none [] apiStateFresh).1 =
      .error (str "Variable " ++ sq ++ str "user_id" ++ sq ++ str " not found in context") ∧
    (execApi httpNone jpNone (str "https://api.example.com") 30 apiCatalogX
        (str "get_user") none [] apiStateFresh).2.2 = [] ∧
    str "Variable " ++ sq ++ str "user_id" ++ sq ++ str " not found in context" ≠
      str "Authentication required but no auth token available" :=
  ⟨rfl, rfl, by decide⟩

/-- C7 (amended): calling `execute_api` on a definition with
`auth: required` while no token is stored always raises some error,
issues no HTTP request, and leaves the reporter log, the auth-token slot
and the context (beyond the stored keyword parameters) unchanged; when
the endpoint and header resolutions succeed, the error is exactly the
AuthRequired message. -/
theorem api_auth_precondition_amended
    (http : RequestDetails → HttpOutcome) (jp : Str → RVal → Option RVal)
    (baseUrl : Str) (timeout : Int) (catalog : List (Str × Dict ApiDef))
    (apiName : Str) (testName : Option Str) (kwargs : List (Str × RVal))
    (st : ApiState) (apiConfig : ApiDef)
    (hdef : getApiConfig catalog apiName = .ok apiConfig)
    (hauth : apiConfig.auth = some (str "required"))
    (htok : st.authToken = none) :
    (∃ e, (execApi http jp baseUrl timeout catalog apiName testName kwargs st).1 = .error e) ∧
    (execApi http jp baseUrl timeout catalog apiName testName kwargs st).2.2 = [] ∧
    (execApi http jp baseUrl timeout catalog apiName testName kwargs st).2.1.reporterLog =
      st.reporterLog ∧
    (execApi http jp baseUrl timeout catalog apiName testName kwargs st).2.1.authToken = none ∧
    (execApi http jp baseUrl timeout catalog apiName testName kwargs st).2.1.context =
      (kwargs.foldl (fun s kv => storeValue s kv.1 kv.2) st).context ∧
    (∀ ep hd,
      resolveVars (kwargs.foldl (fun s kv => storeValue s kv.1 kv.2) st).context none
          apiConfig.endpoint = .ok ep →
      resolveRMapM (kwargs.foldl (fun s kv => storeValue s kv.1 kv.2) st).context none
          apiConfig.headers = .ok hd →
      (execApi http jp baseUrl timeout catalog apiName testName kwargs st).1 =
        .error (str "Authentication required but no auth token available")) := by
  obtain ⟨htokA, hlogA⟩ := applyKwargs_preserves kwargs st
  have htok1 : (kwargs.foldl (fun s kv => storeValue s kv.1 kv.2) st).authToken = none :=
    htokA.trans htok
  have hexec : execApi http jp baseUrl timeout catalog apiName testName kwargs st =
      execApiWithConfig http jp baseUrl timeout apiConfig apiName testName
        (kwargs.foldl (fun s kv => storeValue s kv.1 kv.2) st) := by
    unfold execApi
    rw [hdef]
  cases hep : resolveVars (kwargs.foldl (fun s kv => storeValue s kv.1 kv.2) st).context
      (kwargs.foldl (fun s kv => storeValue s kv.1 kv.2) st).authToken apiConfig.endpoint with
  | error e =>
      have hw : execApiWithConfig http jp baseUrl timeout apiConfig apiName testName
          (kwargs.foldl (fun s kv => storeValue s kv.1 kv.2) st) =
          (.error e, kwargs.foldl (fun s kv => storeValue s kv.1 kv.2) st, []) := by
        unfold execApiWithConfig
        rw [hep]
      refine ⟨⟨e, by rw [hexec, hw]⟩, by rw [hexec, hw], ?_, ?_, by rw [hexec, hw],
        fun ep hd h1 _ => ?_⟩
      · rw [hexec, hw]
        exact hlogA
      · rw [hexec, hw]
        exact htok1
      · rw [htok1] at hep
        rw [h1] at hep
        cases hep
  | ok endpoint =>
      cases hhd : resolveRMapM (kwargs.foldl (fun s kv => storeValue s kv.1 kv.2) st).context
          (kwargs.foldl (fun s kv => storeValue s kv.1 kv.2) st).authToken apiConfig.headers with
      | error e =>
          have hw : execApiWithConfig http jp baseUrl timeout apiConfig apiName testName
              (kwargs.foldl (fun s kv => storeValue s kv.1 kv.2) st) =
              (.error e, kwargs.foldl (fun s kv => storeValue s kv.1 kv.2) st, []) := by
            unfold execApiWithConfig
            rw [hep, hhd]
          refine ⟨⟨e, by rw [hexec, hw]⟩, by rw [hexec, hw], ?_, ?_, by rw [hexec, hw],
            fun ep hd _ h2 => ?_⟩
          · rw [hexec, hw]
            exact hlogA
          · rw [hexec, hw]
            exact htok1
          · rw [htok1] at hhd
            rw [h2] at hhd
            cases hhd
      | ok headers =>
          have hw : execApiWithConfig http jp baseUrl timeout apiConfig apiName testName
              (kwargs.foldl (fun s kv => storeValue s kv.1 kv.2) st) =
              (.error (str "Authentication required but no auth token available"),
                kwargs.foldl (fun s kv => storeValue s kv.1 kv.2) st, []) := by
            unfold execApiWithConfig
            rw [hep, hhd, hauth, htok1]
            rfl
          refine ⟨⟨_, by rw [hexec, hw]⟩, by rw [hexec, hw], ?_, ?_, by rw [hexec, hw],
            fun ep hd _ _ => by rw [hexec, hw]⟩
          · rw [hexec, hw]
            exact hlogA
          · rw [hexec, hw]
            exact htok1

/-- C7, witness for the amended theorem at `login` with a fresh
executor: the hypotheses hold by evaluation and the conclusion follows. -/
theorem api_auth_precondition_amended_witness :
    getApiConfig apiCatalogX (str "login") = .ok authDefPlain ∧
    authDefPlain.auth = some (str "required") ∧
    apiStateFresh.authToken = none ∧
    ((∃ e, (execApi httpNone jpNone (str "https://api.example.com") 30 apiCatalogX
        (str "login") none [] apiStateFresh).1 = .error e) ∧
    (execApi httpNone jpNone (str "https://api.example.com") 30 apiCatalogX
        (str "login") none [] apiStateFresh).2.2 = [] ∧
    (execApi httpNone jpNone (str "https://api.example.com") 30 apiCatalogX
        (str "login") none [] apiStateFresh).2.1.reporterLog = apiStateFresh.reporterLog ∧
    (execApi httpNone jpNone (str "https://api.example.com") 30 apiCatalogX
        (str "login") none [] apiStateFresh).2.1.authToken = none ∧
    (execApi httpNone jpNone (str "https://api.example.com") 30 apiCatalogX
        (str "login") none [] apiStateFresh).2.1.context =
      (([] : List (Str × RVal)).foldl (fun s kv => storeValue s kv.1 kv.2) apiStateFresh).context ∧
    (∀ ep hd,
      resolveVars (([] : List (Str × RVal)).foldl (fun s kv => storeValue s kv.1 kv.2)
          apiStateFresh).context none authDefPlain.endpoint = .ok ep →
      resolveRMapM (([] : List (Str × RVal)).foldl (fun s kv => storeValue s kv.1 kv.2)
          apiStateFresh).context none authDefPlain.headers = .ok hd →
      (execApi httpNone jpNone (str "https://api.example.com") 30 apiCatalogX
          (str "login") none [] apiStateFresh).1 =
        .error (str "Authentication required but no auth token available"))) :=
  ⟨rfl, rfl, rfl,
    api_auth_precondition_amended httpNone jpNone (str "https://api.example.com") 30
      apiCatalogX (str "login") none [] apiStateFresh authDefPlain rfl rfl rfl⟩

end WiseTestAI
